import Mathlib

/-!
Verification development for the shop-drawing layout engine of the
Door-Quoter repository.

The definitions below are a shallow embedding of
src/shop-drawings/drawing_generator.py and
src/shop-drawings/package_generator.py.  Real arithmetic of the Python
code is modelled with exact rationals; every arithmetic expression is
copied from the source.  The matplotlib calls of the source are modelled
by emitting one typed scene primitive per geometric drawing call, in
source order.  Pure styling artifacts of the source (colors, line
widths, fonts, the hatch shading inside a wall-extension stub, the room
label texts, and the small hardware adornment circles drawn on top of a
hinge dot) carry no geometric information used by any stated property
and are not emitted; the stub rectangle itself, which the source gates
with the same draw-extension flag as its hatching, is emitted.
-/

/-- Substring test on character lists: needle occurs somewhere in hay.
Models the Python operator `in` on strings. -/
def charsLead : List Char → List Char → Bool
  | [], _ => true
  | _ :: _, [] => false
  | a :: l, b :: r => a == b && charsLead l r

def charsHas (needle : List Char) : List Char → Bool
  | [] => charsLead needle []
  | c :: rest => charsLead needle (c :: rest) || charsHas needle rest

/-- Python `needle in hay` for strings. -/
def strHas (hay needle : String) : Bool :=
  charsHas needle.data hay.data

/-- ASCII lowercasing of one character, the effect of the Python
string lower method on the formula texts considered here. -/
def lowerChar (c : Char) : Char :=
  if 'A' ≤ c ∧ c ≤ 'Z' then Char.ofNat (c.toNat + 32) else c

/-- Python lower() on a string. -/
def strLower (s : String) : String := ⟨s.data.map lowerChar⟩

-- Architectural constants of drawing_generator.py (inches).
def FRAME_THICKNESS : ℚ := 0.75
def GLASS_STOP : ℚ := 0.5
def HANDLE_LENGTH : ℚ := 6
def SWING_HEADER : ℚ := 5
def SWING_BOTTOM : ℚ := 10
def SWING_STILE : ℚ := 4
def SLIDING_HEADER : ℚ := 5
def SLIDING_BOTTOM : ℚ := 5
def SLIDING_LOCK_RAIL : ℚ := 4
def SLIDING_OUTER_STILE : ℚ := 2
def FIXED_HEADER : ℚ := 5
def FIXED_BOTTOM : ℚ := 5
def FIXED_STILE : ℚ := 1
def FIXED_TERMINATING_STILE : ℚ := 4

/-- Canonical panel value produced by convert_quoting_tool_data.  The
source represents a panel as a dict with these keys; the hardware
option list, the corner direction and the is-corner flag are carried by
the source dict but are never read by any drawing routine treated here,
so they are not modelled. -/
structure Panel where
  type : String
  width : ℚ
  swing_direction : String
  sliding_direction : String
  glass_type : String
  deriving Repr, DecidableEq

def defaultPanel : Panel :=
  { type := "Fixed", width := 36, swing_direction := "Right In",
    sliding_direction := "Left", glass_type := "Clear" }

/-- Raw upstream panel record, the relevant fields of the quoting-tool
JSON blob read by convert_quoting_tool_data; a missing key is `none`. -/
structure RawPanel where
  productType : Option String
  width : Option ℚ
  height : Option ℚ
  swingDirection : Option String
  slidingDirection : Option String
  glassType : Option String
  deriving Repr, DecidableEq

/-- Product-type mapping of convert_quoting_tool_data. -/
def mapProductType (pt : String) : String :=
  if pt = "SWING_DOOR" then "Swing Door"
  else if pt = "SLIDING_DOOR" then "Sliding Door"
  else if pt = "CORNER_90" then "Corner"
  else "Fixed"

/-- convert_quoting_tool_data: normalizes each raw record into a panel
dict, applying the source defaults.  The function is total: the source
has no width validation and no failure path (its only try block guards
the hardware option resolution and falls back to an empty list). -/
def convertQuotingToolData (raws : List RawPanel) : List Panel :=
  raws.map (fun r =>
    { type := mapProductType (r.productType.getD "FIXED_PANEL"),
      width := r.width.getD 36,
      swing_direction := r.swingDirection.getD "Right In",
      sliding_direction := r.slidingDirection.getD "Left",
      glass_type := r.glassType.getD "Clear" })

def totalWidth (panels : List Panel) : ℚ :=
  (panels.map (·.width)).sum

-- ------------------------------------------------------------------
-- Elevation view (draw_architectural_elevation)
-- ------------------------------------------------------------------

/-- scale = min(12 / total_width, 6 / height). -/
def elevScale (tw height : ℚ) : ℚ := min (12 / tw) (6 / height)

def elevFigWidth (tw height : ℚ) : ℚ := tw * elevScale tw height

def elevFigHeight (tw height : ℚ) : ℚ := height * elevScale tw height

/-- Stile decision data of the Fixed branch of
draw_architectural_elevation: stile widths with the terminating-stile
override at the opening ends, and the hide flags for sides adjacent to
a sliding door. -/
structure FixedStileInfo where
  leftW : ℚ
  rightW : ℚ
  hideLeft : Bool
  hideRight : Bool
  deriving Repr, DecidableEq

def fixedStileInfo (panels : List Panel) (idx : ℕ) : FixedStileInfo :=
  { leftW := if idx = 0 then FIXED_TERMINATING_STILE else FIXED_STILE,
    rightW := if idx = panels.length - 1 then FIXED_TERMINATING_STILE else FIXED_STILE,
    hideLeft := decide (0 < idx) &&
      ((panels.getD (idx - 1) defaultPanel).type == "Sliding Door"),
    hideRight := decide (idx < panels.length - 1) &&
      ((panels.getD (idx + 1) defaultPanel).type == "Sliding Door") }

/-- Elevation scene primitive: an axis-aligned rectangle or a segment,
with a role tag. -/
inductive EPrim where
  | rect (role : String) (x y w h : ℚ)
  | seg (role : String) (x0 y0 x1 y1 : ℚ)
  deriving Repr, DecidableEq

/-- Emission of the Fixed branch of the elevation panel loop, at panel
index idx with running offset px, panel width pw and opening height ph
(py is 0 in the source). -/
def fixedPanelElevPrims (panels : List Panel) (idx : ℕ) (px pw ph : ℚ) :
    List EPrim :=
  let info := fixedStileInfo panels idx
  let leftDraw : ℚ := if info.hideLeft then 0 else info.leftW
  let rightDraw : ℚ := if info.hideRight then 0 else info.rightW
  (if info.hideLeft then [] else [EPrim.rect "stile" px 0 info.leftW ph])
  ++ (if info.hideRight then [] else
        [EPrim.rect "stile" (px + pw - info.rightW) 0 info.rightW ph])
  ++ [EPrim.rect "rail" (px + leftDraw) (ph - FIXED_HEADER)
        (pw - leftDraw - rightDraw) FIXED_HEADER,
      EPrim.rect "rail" (px + leftDraw) 0 (pw - leftDraw - rightDraw) FIXED_BOTTOM,
      EPrim.rect "glass-stop" (px + leftDraw + 1) (FIXED_BOTTOM + 1)
        (pw - leftDraw - rightDraw - 2) (ph - FIXED_HEADER - FIXED_BOTTOM - 2)]

def isStileRect : EPrim → Bool
  | .rect role _ _ _ _ => role == "stile"
  | _ => false

/-- Result data of generate_elevation_drawing that the stated
properties mention: the reported total width and height, and the figure
dimensions chosen by draw_architectural_elevation. -/
structure ElevOut where
  total_width : ℚ
  height : ℚ
  figW : ℚ
  figH : ℚ
  deriving Repr, DecidableEq

def listMaxQ (a : ℚ) (l : List ℚ) : ℚ := l.foldl max a

/-- generate_elevation_drawing: converts the raw records, takes the
height as the maximum of the per-panel heights (default 96), and runs
the elevation layout.  The only failure an elevation request can hit in
the source is the figure-size computation: a zero total width raises a
division error in the scale expression and a negative total width or a
nonpositive height produces a nonpositive figure size rejected by the
figure constructor; both surface through the generic try block as a
failed result.  The per-panel drawing loop reads only keys that
convert_quoting_tool_data always writes and cannot fail. -/
def generateElevationDrawing (raws : List RawPanel) : Except String ElevOut :=
  let panels := convertQuotingToolData raws
  let height : ℚ :=
    match raws with
    | [] => 96
    | r :: rs => listMaxQ (r.height.getD 96) (rs.map (fun q => q.height.getD 96))
  let tw := totalWidth panels
  if tw ≤ 0 ∨ height ≤ 0 then .error "invalid figure size"
  else .ok ⟨tw, height, elevFigWidth tw height, elevFigHeight tw height⟩

def isOkE {α : Type} : Except String α → Bool
  | .ok _ => true
  | .error _ => false

example : strHas "Left Out" "Left" = true := by decide
example : strHas "Right In" "Left" = false := by decide
example : mapProductType "CORNER_90" = "Corner" := by decide

-- ------------------------------------------------------------------
-- Plan view (top-down) scene primitives
-- ------------------------------------------------------------------

/-- Plan-view scene primitive.  Each constructor corresponds to one
geometric matplotlib call of the source, in inches of drawing space:
wallExt is a hatched wall-extension stub rectangle, clearRect the white
rectangle clearing a door opening, line a straight segment with a role
tag, marker the numbered circle of a fixed panel, doorLeaf the swing
leaf rectangle given by its hinge point, pre-rotation width and height
and rotation angle in degrees, hingeDot the hinge point, arc a circular
arc given by center, radius and start and end angles in degrees,
arrow an annotation arrow from tail to tip with a role tag, slidingLeaf
the sliding leaf rectangle, dimLabel a dimension text carrying the
labelled width. -/
inductive Prim where
  | wallExt (x y w h : ℚ)
  | clearRect (x y w h : ℚ)
  | line (role : String) (x0 y0 x1 y1 : ℚ)
  | marker (x y : ℚ) (label : String)
  | doorLeaf (hx hy rw rh angle : ℚ)
  | hingeDot (x y : ℚ)
  | arc (cx cy r t1 t2 : ℚ)
  | arrow (role : String) (x0 y0 x1 y1 : ℚ)
  | slidingLeaf (x y w h : ℚ)
  | dimLabel (x y v : ℚ)
  deriving Repr, DecidableEq

/-- Fixed-panel body of the horizontal plan loop: three glass lines,
two division lines and the numbered marker. -/
def fixedBodyH (wallY wallBotY wallH left right : ℚ) (count : ℕ) : List Prim :=
  [Prim.line "glass" left (wallY + 2) right (wallY + 2),
   Prim.line "glass-center" left wallY right wallY,
   Prim.line "glass" left (wallY - 2) right (wallY - 2),
   Prim.line "div" left wallBotY left (wallBotY + wallH),
   Prim.line "div" right wallBotY right (wallBotY + wallH),
   Prim.marker ((left + right) / 2) wallY ("F" ++ toString count)]

/-- Swing-door body of the horizontal plan loop: clearing rectangle,
three jamb lines per side at offsets 0, 0.75 and 1.5, the leaf
rectangle rotated 90 degrees about the hinge, the hinge dot, the
quarter-circle swing arc and the arrow at the arc tip.  The hinge sits
frame_w in from the left jamb when the governing direction contains
Left and in from the right jamb otherwise; the arc spans 0 to 90
degrees in the Left case (tip straight above the hinge) and 90 to 180
degrees otherwise (tip straight left of the hinge). -/
def swingBodyH (wallY wallBotY wallH frameW doorTh left right w : ℚ)
    (doorSwing : String) : List Prim :=
  let hingeX : ℚ := if strHas doorSwing "Left" then left + frameW else right - frameW
  let doorLen : ℚ := w - 2 * frameW
  let tipX : ℚ := if strHas doorSwing "Left" then hingeX else hingeX - doorLen
  let tipY : ℚ := if strHas doorSwing "Left" then wallY + doorLen else wallY
  [Prim.clearRect left wallBotY w wallH,
   Prim.line "jamb" left wallBotY left (wallBotY + wallH),
   Prim.line "jamb" right wallBotY right (wallBotY + wallH),
   Prim.line "jamb" (left + 0.75) wallBotY (left + 0.75) (wallBotY + wallH),
   Prim.line "jamb" (right - 0.75) wallBotY (right - 0.75) (wallBotY + wallH),
   Prim.line "jamb" (left + 1.5) wallBotY (left + 1.5) (wallBotY + wallH),
   Prim.line "jamb" (right - 1.5) wallBotY (right - 1.5) (wallBotY + wallH),
   Prim.doorLeaf hingeX wallY doorLen doorTh 90,
   Prim.hingeDot hingeX wallY,
   Prim.arc hingeX wallY doorLen (if strHas doorSwing "Left" then 0 else 90)
     (if strHas doorSwing "Left" then 90 else 180),
   Prim.arrow "arc-tip" (tipX - 7) (tipY - 7) tipX tipY]

/-- Sliding-door body of the horizontal sliding plan loop: clearing
rectangle, jamb lines, the leaf shown fully open on the hall side
shifted 70 percent of its clear span toward the sliding direction, the
two gray track lines and the red direction arrow. -/
def slidingBodyH (wallY wallBotY wallH frameW doorTh left right w : ℚ)
    (doorSliding : String) : List Prim :=
  let doorLen : ℚ := w - 2 * frameW
  let panelY : ℚ := wallY + wallH / 2 + 2
  let panelX : ℚ :=
    if doorSliding = "Left" then left + frameW - doorLen * 0.7
    else right - frameW - doorLen * 0.3
  let arrowStartX : ℚ := left + w / 2
  let arrowEndX : ℚ := if doorSliding = "Left" then left + w / 4 else left + 3 * w / 4
  [Prim.clearRect left wallBotY w wallH,
   Prim.line "jamb" left wallBotY left (wallBotY + wallH),
   Prim.line "jamb" right wallBotY right (wallBotY + wallH),
   Prim.line "jamb" (left + 0.75) wallBotY (left + 0.75) (wallBotY + wallH),
   Prim.line "jamb" (right - 0.75) wallBotY (right - 0.75) (wallBotY + wallH),
   Prim.line "jamb" (left + 1.5) wallBotY (left + 1.5) (wallBotY + wallH),
   Prim.line "jamb" (right - 1.5) wallBotY (right - 1.5) (wallBotY + wallH),
   Prim.slidingLeaf panelX panelY doorLen doorTh,
   Prim.line "track" (left + frameW) (wallBotY + wallH - 0.5)
     (right - frameW) (wallBotY + wallH - 0.5),
   Prim.line "track" (left + frameW) (wallBotY + 0.5) (right - frameW) (wallBotY + 0.5),
   Prim.arrow "slide-dir" arrowStartX wallY arrowEndX wallY]

/-- Fixed-panel body of the vertical plan loop (roles of x and y
swapped relative to the horizontal loop). -/
def fixedBodyV (wallX wallLeftX wallW bottom top : ℚ) (count : ℕ) : List Prim :=
  [Prim.line "glass" (wallX - 2) bottom (wallX - 2) top,
   Prim.line "glass-center" wallX bottom wallX top,
   Prim.line "glass" (wallX + 2) bottom (wallX + 2) top,
   Prim.line "div" wallLeftX bottom (wallLeftX + wallW) bottom,
   Prim.line "div" wallLeftX top (wallLeftX + wallW) top,
   Prim.marker wallX ((bottom + top) / 2) ("F" ++ toString count)]

/-- Swing-door body of the vertical plan loop: the hinge moves to the
vertical axis, the leaf is the pre-rotation rectangle of door
thickness by door length rotated 0 degrees in the Left case and 180
degrees otherwise, and the arc quadrants are remapped to 270 to 360
degrees for Left and 180 to 270 degrees otherwise. -/
def swingBodyV (wallX wallLeftX wallW frameW doorTh bottom top w : ℚ)
    (doorSwing : String) : List Prim :=
  let hingeY : ℚ := if strHas doorSwing "Left" then bottom + frameW else top - frameW
  let doorLen : ℚ := w - 2 * frameW
  let tipX : ℚ := if strHas doorSwing "Left" then wallX + doorLen else wallX
  let tipY : ℚ := if strHas doorSwing "Left" then hingeY else hingeY - doorLen
  [Prim.clearRect wallLeftX bottom wallW w,
   Prim.line "jamb" wallLeftX bottom (wallLeftX + wallW) bottom,
   Prim.line "jamb" wallLeftX top (wallLeftX + wallW) top,
   Prim.line "jamb" wallLeftX (bottom + 0.75) (wallLeftX + wallW) (bottom + 0.75),
   Prim.line "jamb" wallLeftX (top - 0.75) (wallLeftX + wallW) (top - 0.75),
   Prim.line "jamb" wallLeftX (bottom + 1.5) (wallLeftX + wallW) (bottom + 1.5),
   Prim.line "jamb" wallLeftX (top - 1.5) (wallLeftX + wallW) (top - 1.5),
   Prim.doorLeaf wallX hingeY doorTh doorLen
     (if strHas doorSwing "Left" then 0 else 180),
   Prim.hingeDot wallX hingeY,
   Prim.arc wallX hingeY doorLen (if strHas doorSwing "Left" then 270 else 180)
     (if strHas doorSwing "Left" then 360 else 270),
   Prim.arrow "arc-tip" (tipX - 7) (tipY + 7) tipX tipY]

/-- Sliding-door body of the vertical sliding plan loop. -/
def slidingBodyV (wallX wallLeftX wallW frameW doorTh bottom top w : ℚ)
    (doorSliding : String) : List Prim :=
  let doorLen : ℚ := w - 2 * frameW
  let panelX : ℚ := wallX + wallW / 2 + 2
  let panelY : ℚ :=
    if doorSliding = "Left" then bottom + frameW - doorLen * 0.7
    else top - frameW - doorLen * 0.3
  let arrowStartY : ℚ := bottom + w / 2
  let arrowEndY : ℚ := if doorSliding = "Left" then bottom + w / 4 else bottom + 3 * w / 4
  [Prim.clearRect wallLeftX bottom wallW w,
   Prim.line "jamb" wallLeftX bottom (wallLeftX + wallW) bottom,
   Prim.line "jamb" wallLeftX top (wallLeftX + wallW) top,
   Prim.line "jamb" wallLeftX (bottom + 0.75) (wallLeftX + wallW) (bottom + 0.75),
   Prim.line "jamb" wallLeftX (top - 0.75) (wallLeftX + wallW) (top - 0.75),
   Prim.line "jamb" wallLeftX (bottom + 1.5) (wallLeftX + wallW) (bottom + 1.5),
   Prim.line "jamb" wallLeftX (top - 1.5) (wallLeftX + wallW) (top - 1.5),
   Prim.slidingLeaf panelX panelY doorTh doorLen,
   Prim.line "track" (wallLeftX + wallW - 0.5) (bottom + frameW)
     (wallLeftX + wallW - 0.5) (top - frameW),
   Prim.line "track" (wallLeftX + 0.5) (bottom + frameW) (wallLeftX + 0.5) (top - frameW),
   Prim.arrow "slide-dir" wallX arrowStartY wallX arrowEndY]

/-- Panel loop of draw_horizontal_wall_segment (identically the loop of
draw_topdown_swing_fixed): separation lines at the first and last index
of the panel-type list, then the body of the matching panel type.  A
sliding-door or corner panel draws nothing in this loop and only
advances the running offset.  The unused door-index argument of the
source routine is dropped; its swing-door branch fires for every panel
whose type is Swing Door. -/
def segItemsH (wallY wallH frameW doorTh : ℚ) (doorSwing : String) (n : ℕ) :
    ℕ → ℕ → ℚ → List (ℚ × String) → List Prim
  | _, _, _, [] => []
  | idx, fc, x, (w, t) :: rest =>
    let wallBotY := wallY - wallH / 2
    let seps :=
      (if idx = 0 then [Prim.line "sep" x wallBotY x (wallBotY + wallH)] else [])
      ++ (if idx = n - 1 then
            [Prim.line "sep" (x + w) wallBotY (x + w) (wallBotY + wallH)] else [])
    if t = "Fixed" then
      seps ++ fixedBodyH wallY wallBotY wallH x (x + w) (fc + 1)
        ++ segItemsH wallY wallH frameW doorTh doorSwing n (idx + 1) (fc + 1) (x + w) rest
    else if t = "Swing Door" then
      seps ++ swingBodyH wallY wallBotY wallH frameW doorTh x (x + w) w doorSwing
        ++ segItemsH wallY wallH frameW doorTh doorSwing n (idx + 1) fc (x + w) rest
    else
      seps ++ segItemsH wallY wallH frameW doorTh doorSwing n (idx + 1) fc (x + w) rest

/-- Panel loop of draw_vertical_wall_segment. -/
def segItemsV (wallX wallW frameW doorTh : ℚ) (doorSwing : String) (n : ℕ) :
    ℕ → ℕ → ℚ → List (ℚ × String) → List Prim
  | _, _, _, [] => []
  | idx, fc, y, (w, t) :: rest =>
    let wallLeftX := wallX - wallW / 2
    let seps :=
      (if idx = 0 then [Prim.line "sep" wallLeftX y (wallLeftX + wallW) y] else [])
      ++ (if idx = n - 1 then
            [Prim.line "sep" wallLeftX (y + w) (wallLeftX + wallW) (y + w)] else [])
    if t = "Fixed" then
      seps ++ fixedBodyV wallX wallLeftX wallW y (y + w) (fc + 1)
        ++ segItemsV wallX wallW frameW doorTh doorSwing n (idx + 1) (fc + 1) (y + w) rest
    else if t = "Swing Door" then
      seps ++ swingBodyV wallX wallLeftX wallW frameW doorTh y (y + w) w doorSwing
        ++ segItemsV wallX wallW frameW doorTh doorSwing n (idx + 1) fc (y + w) rest
    else
      seps ++ segItemsV wallX wallW frameW doorTh doorSwing n (idx + 1) fc (y + w) rest

/-- Panel loop of draw_horizontal_sliding_segment (identically the loop
of draw_topdown_sliding_fixed): the sliding-door branch replaces the
swing-door branch and a swing-door or corner panel draws nothing. -/
def slidItemsH (wallY wallH frameW doorTh : ℚ) (doorSliding : String) (n : ℕ) :
    ℕ → ℕ → ℚ → List (ℚ × String) → List Prim
  | _, _, _, [] => []
  | idx, fc, x, (w, t) :: rest =>
    let wallBotY := wallY - wallH / 2
    let seps :=
      (if idx = 0 then [Prim.line "sep" x wallBotY x (wallBotY + wallH)] else [])
      ++ (if idx = n - 1 then
            [Prim.line "sep" (x + w) wallBotY (x + w) (wallBotY + wallH)] else [])
    if t = "Fixed" then
      seps ++ fixedBodyH wallY wallBotY wallH x (x + w) (fc + 1)
        ++ slidItemsH wallY wallH frameW doorTh doorSliding n (idx + 1) (fc + 1) (x + w) rest
    else if t = "Sliding Door" then
      seps ++ slidingBodyH wallY wallBotY wallH frameW doorTh x (x + w) w doorSliding
        ++ slidItemsH wallY wallH frameW doorTh doorSliding n (idx + 1) fc (x + w) rest
    else
      seps ++ slidItemsH wallY wallH frameW doorTh doorSliding n (idx + 1) fc (x + w) rest

/-- Panel loop of draw_vertical_sliding_segment. -/
def slidItemsV (wallX wallW frameW doorTh : ℚ) (doorSliding : String) (n : ℕ) :
    ℕ → ℕ → ℚ → List (ℚ × String) → List Prim
  | _, _, _, [] => []
  | idx, fc, y, (w, t) :: rest =>
    let wallLeftX := wallX - wallW / 2
    let seps :=
      (if idx = 0 then [Prim.line "sep" wallLeftX y (wallLeftX + wallW) y] else [])
      ++ (if idx = n - 1 then
            [Prim.line "sep" wallLeftX (y + w) (wallLeftX + wallW) (y + w)] else [])
    if t = "Fixed" then
      seps ++ fixedBodyV wallX wallLeftX wallW y (y + w) (fc + 1)
        ++ slidItemsV wallX wallW frameW doorTh doorSliding n (idx + 1) (fc + 1) (y + w) rest
    else if t = "Sliding Door" then
      seps ++ slidingBodyV wallX wallLeftX wallW frameW doorTh y (y + w) w doorSliding
        ++ slidItemsV wallX wallW frameW doorTh doorSliding n (idx + 1) fc (y + w) rest
    else
      seps ++ slidItemsV wallX wallW frameW doorTh doorSliding n (idx + 1) fc (y + w) rest

/-- draw_horizontal_wall_segment.  The source routine also receives an
axes object, the panel dict list and a door index; the axes object is
the emission target, and the other two are never read by the routine
body, so they are dropped here.  The hatch shading of a stub is gated
by the same flag as the stub rectangle and is not emitted (see the file
comment). -/
def drawHorizontalWallSegment (widths : List ℚ) (ptypes : List String)
    (startX startY : ℚ) (doorSwing : String) (wallT frameD doorTh : ℚ)
    (drawLeftExt drawRightExt : Bool) : List Prim :=
  if widths = [] then [] else
  let totalW := widths.sum
  let wallBotY := startY - wallT / 2
  (if drawLeftExt then [Prim.wallExt (startX - 20) wallBotY 20 wallT] else [])
  ++ (if drawRightExt then [Prim.wallExt (startX + totalW) wallBotY 20 wallT] else [])
  ++ segItemsH startY wallT frameD doorTh doorSwing ptypes.length 0 0 startX
       (widths.zip ptypes)

/-- draw_vertical_wall_segment. -/
def drawVerticalWallSegment (widths : List ℚ) (ptypes : List String)
    (startX startY : ℚ) (doorSwing : String) (wallT frameD doorTh : ℚ)
    (drawBottomExt drawTopExt : Bool) : List Prim :=
  if widths = [] then [] else
  let totalH := widths.sum
  let wallLeftX := startX - wallT / 2
  (if drawBottomExt then [Prim.wallExt wallLeftX (startY - 20) wallT 20] else [])
  ++ (if drawTopExt then [Prim.wallExt wallLeftX (startY + totalH) wallT 20] else [])
  ++ segItemsV startX wallT frameD doorTh doorSwing ptypes.length 0 0 startY
       (widths.zip ptypes)

/-- draw_horizontal_sliding_segment. -/
def drawHorizontalSlidingSegment (widths : List ℚ) (ptypes : List String)
    (startX startY : ℚ) (doorSliding : String) (wallT frameD doorTh : ℚ)
    (drawLeftExt drawRightExt : Bool) : List Prim :=
  if widths = [] then [] else
  let totalW := widths.sum
  let wallBotY := startY - wallT / 2
  (if drawLeftExt then [Prim.wallExt (startX - 20) wallBotY 20 wallT] else [])
  ++ (if drawRightExt then [Prim.wallExt (startX + totalW) wallBotY 20 wallT] else [])
  ++ slidItemsH startY wallT frameD doorTh doorSliding ptypes.length 0 0 startX
       (widths.zip ptypes)

/-- draw_vertical_sliding_segment. -/
def drawVerticalSlidingSegment (widths : List ℚ) (ptypes : List String)
    (startX startY : ℚ) (doorSliding : String) (wallT frameD doorTh : ℚ)
    (drawBottomExt drawTopExt : Bool) : List Prim :=
  if widths = [] then [] else
  let totalH := widths.sum
  let wallLeftX := startX - wallT / 2
  (if drawBottomExt then [Prim.wallExt wallLeftX (startY - 20) wallT 20] else [])
  ++ (if drawTopExt then [Prim.wallExt wallLeftX (startY + totalH) wallT 20] else [])
  ++ slidItemsV startX wallT frameD doorTh doorSliding ptypes.length 0 0 startY
       (widths.zip ptypes)

/-- Per-panel dimension lines of the non-corner plan routines, below
the wall at dim_y, each an annotation arrow plus the labelled width. -/
def dimPrimsH (dimY : ℚ) : ℚ → List ℚ → List Prim
  | _, [] => []
  | x, w :: rest =>
    [Prim.arrow "dim" x dimY (x + w) dimY,
     Prim.dimLabel (x + w / 2) (dimY - 2) w] ++ dimPrimsH dimY (x + w) rest

/-- Vertical dimension lines of the corner routines, to the right of
the vertical wall at dim_x. -/
def dimPrimsV (dimX : ℚ) : ℚ → List ℚ → List Prim
  | _, [] => []
  | y, w :: rest =>
    [Prim.arrow "dim" dimX y dimX (y + w),
     Prim.dimLabel (dimX + 2) (y + w / 2) w] ++ dimPrimsV dimX (y + w) rest

/-- draw_topdown_swing_fixed: the original non-corner plan routine.
Its body is line for line the body of draw_horizontal_wall_segment at
origin with both wall extensions drawn, followed by the per-panel
dimension lines (the room label texts are styling and not emitted).
The unused door-index argument of the source is dropped. -/
def drawTopdownSwingFixed (widths : List ℚ) (ptypes : List String)
    (doorSwing : String) (wallT frameD doorTh : ℚ) : List Prim :=
  let totalW := widths.sum
  let wallBotY := 0 - wallT / 2
  [Prim.wallExt (0 - 20) wallBotY 20 wallT,
   Prim.wallExt totalW wallBotY 20 wallT]
  ++ segItemsH 0 wallT frameD doorTh doorSwing ptypes.length 0 0 0 (widths.zip ptypes)
  ++ dimPrimsH (wallBotY - 10) 0 widths

/-- draw_topdown_sliding_fixed: the non-corner sliding plan routine,
likewise the horizontal sliding segment at origin with both extensions
plus dimension lines. -/
def drawTopdownSlidingFixed (widths : List ℚ) (ptypes : List String)
    (doorSliding : String) (wallT frameD doorTh : ℚ) : List Prim :=
  let totalW := widths.sum
  let wallBotY := 0 - wallT / 2
  [Prim.wallExt (0 - 20) wallBotY 20 wallT,
   Prim.wallExt totalW wallBotY 20 wallT]
  ++ slidItemsH 0 wallT frameD doorTh doorSliding ptypes.length 0 0 0 (widths.zip ptypes)
  ++ dimPrimsH (wallBotY - 10) 0 widths

/-- First index of a given panel type, the explicit search loop the
corner routines run over the type list. -/
def firstIdxOf (tgt : String) : List String → Option ℕ
  | [] => none
  | t :: rest => if t = tgt then some 0 else (firstIdxOf tgt rest).map (· + 1)

/-- draw_topdown_swing_fixed_with_corners: split at the first corner;
the leading panels form a horizontal segment from the origin with only
its far (left) extension, the trailing panels form a vertical segment
rising from the corner point with only its far (top) extension, then
exterior dimension lines for both runs.  The source chooses between
passing the door index or a minus-one sentinel to a segment depending
on which side of the corner the door falls, but the segment routines
never read that argument, so the two branches of each choice emit
identical primitives and the choice is collapsed here; the door-swing
argument is passed unchanged to both segments in the source. -/
def drawTopdownSwingFixedWithCorners (widths : List ℚ) (ptypes : List String)
    (doorSwing : String) (wallT frameD doorTh : ℚ) : List Prim :=
  match firstIdxOf "Corner" ptypes with
  | none => drawTopdownSwingFixed widths ptypes doorSwing wallT frameD doorTh
  | some ci =>
    (if 0 < ci then
       drawHorizontalWallSegment (widths.take ci) (ptypes.take ci) 0 0
         doorSwing wallT frameD doorTh true false
     else [])
    ++ (if ci < ptypes.length - 1 then
          drawVerticalWallSegment (widths.drop (ci + 1)) (ptypes.drop (ci + 1))
            ((widths.take ci).sum) 0 doorSwing wallT frameD doorTh false true
        else [])
    ++ (if 0 < ci then dimPrimsH (0 - wallT / 2 - 10) 0 (widths.take ci) else [])
    ++ (if ci < ptypes.length - 1 then
          dimPrimsV ((widths.take ci).sum + 15) 0 (widths.drop (ci + 1)) else [])

/-- draw_topdown_sliding_fixed_with_corners: as the swing version, but
the segment containing the first sliding door uses the sliding drawing
logic while the other segment falls back to the wall-segment routine
with a fixed Right In direction, exactly as the source spells out. -/
def drawTopdownSlidingFixedWithCorners (widths : List ℚ) (doorIdx : ℕ)
    (doorSliding : String) (ptypes : List String) (wallT frameD doorTh : ℚ) :
    List Prim :=
  match firstIdxOf "Corner" ptypes with
  | none => drawTopdownSlidingFixed widths ptypes doorSliding wallT frameD doorTh
  | some ci =>
    (if 0 < ci then
       (if doorIdx < ci then
          drawHorizontalSlidingSegment (widths.take ci) (ptypes.take ci) 0 0
            doorSliding wallT frameD doorTh true false
        else
          drawHorizontalWallSegment (widths.take ci) (ptypes.take ci) 0 0
            "Right In" wallT frameD doorTh true false)
     else [])
    ++ (if ci < ptypes.length - 1 then
          (if ci < doorIdx then
             drawVerticalSlidingSegment (widths.drop (ci + 1)) (ptypes.drop (ci + 1))
               ((widths.take ci).sum) 0 doorSliding wallT frameD doorTh false true
           else
             drawVerticalWallSegment (widths.drop (ci + 1)) (ptypes.drop (ci + 1))
               ((widths.take ci).sum) 0 "Right In" wallT frameD doorTh false true)
        else [])
    ++ (if 0 < ci then dimPrimsH (0 - wallT / 2 - 10) 0 (widths.take ci) else [])
    ++ (if ci < ptypes.length - 1 then
          dimPrimsV ((widths.take ci).sum + 15) 0 (widths.drop (ci + 1)) else [])

/-- generate_plan_drawing, from converted panels to the emitted scene:
reject a sequence without a door, otherwise route on the first door
type, with the corner-aware routine when a corner is present.  The
governing direction is read from the panel at the first matching door
index; the corner-aware swing routine receives it directly (its door
index argument is dropped here, see above). -/
def generatePlanScene (panels : List Panel) : Except String (List Prim) :=
  let ptypes := panels.map (·.type)
  let hasCorner := ptypes.any (· == "Corner")
  let hasSwing := ptypes.any (· == "Swing Door")
  let hasSliding := ptypes.any (· == "Sliding Door")
  if hasSwing || hasSliding then
    let widths := panels.map (·.width)
    if hasSwing then
      let doorIdx := (firstIdxOf "Swing Door" ptypes).getD ptypes.length
      let doorSwing := (panels.getD doorIdx defaultPanel).swing_direction
      if hasCorner then
        .ok (drawTopdownSwingFixedWithCorners widths ptypes doorSwing 8 3 2)
      else
        .ok (drawTopdownSwingFixed widths ptypes doorSwing 8 3 2)
    else
      let doorIdx := (firstIdxOf "Sliding Door" ptypes).getD ptypes.length
      let doorSliding := (panels.getD doorIdx defaultPanel).sliding_direction
      if hasCorner then
        .ok (drawTopdownSlidingFixedWithCorners widths doorIdx doorSliding ptypes 8 3 2)
      else
        .ok (drawTopdownSlidingFixed widths ptypes doorSliding 8 3 2)
  else
    .error "Plan view requires at least one door (swing or sliding)"

/-- The single direction the plan view reads: the swing direction of
the panel at the first Swing Door index when a swing door exists, else
the sliding direction of the panel at the first Sliding Door index
when a sliding door exists, else none. -/
def governingDirection (panels : List Panel) : Option String :=
  let ptypes := panels.map (·.type)
  if ptypes.any (· == "Swing Door") then
    some (panels.getD ((firstIdxOf "Swing Door" ptypes).getD ptypes.length)
      defaultPanel).swing_direction
  else if ptypes.any (· == "Sliding Door") then
    some (panels.getD ((firstIdxOf "Sliding Door" ptypes).getD ptypes.length)
      defaultPanel).sliding_direction
  else none

-- Scene observation predicates.

/-- A door leaf primitive: a swing leaf or a sliding leaf. -/
def isLeaf : Prim → Bool
  | .doorLeaf _ _ _ _ _ => true
  | .slidingLeaf _ _ _ _ => true
  | _ => false

def isWallExt : Prim → Bool
  | .wallExt _ _ _ _ => true
  | _ => false

/-- A sliding-door visual: the sliding leaf, a track line or the
sliding direction arrow. -/
def isSlidingPrim : Prim → Bool
  | .slidingLeaf _ _ _ _ => true
  | .line role _ _ _ _ => role == "track"
  | .arrow role _ _ _ _ => role == "slide-dir"
  | _ => false

/-- A swing-door geometry primitive: the leaf, the swing arc or the
arc-tip arrow. -/
def isSwingGeom : Prim → Bool
  | .doorLeaf _ _ _ _ _ => true
  | .arc _ _ _ _ _ => true
  | .arrow role _ _ _ _ => role == "arc-tip"
  | _ => false

-- ------------------------------------------------------------------
-- BOM aggregation (create_bom_page of package_generator.py)
-- ------------------------------------------------------------------

/-- One product BOM record as read by create_bom_page.  An absent
formula is modelled by the empty string, which is falsy in the source
condition guarding formula evaluation.  The cost read with a default
of zero is carried directly as a rational. -/
structure BomItem where
  partName : String
  partType : String
  description : String
  unit : String
  quantity : ℚ
  cost : ℚ
  formula : String
  deriving Repr, DecidableEq

/-- The per-panel data create_bom_page reads: width, height and the
product BOM records of the panel. -/
structure BomPanel where
  width : ℚ
  height : ℚ
  boms : List BomItem
  deriving Repr, DecidableEq

/-- The aggregation key of a line item. -/
def bomKey (b : BomItem) : String := b.partName ++ " (" ++ b.unit ++ ")"

/-- Quantity a single panel contributes for one BOM record: the
formula text is inspected by case-insensitive substring match; a
width-based formula converts the panel width from inches to feet, a
height-based one the height, otherwise the fixed per-record quantity
applies. -/
def bomContribution (p : BomPanel) (b : BomItem) : ℚ :=
  if b.formula ≠ "" then
    if strHas (strLower b.formula) "width" then p.width / 12
    else if strHas (strLower b.formula) "height" then p.height / 12
    else b.quantity
  else b.quantity

/-- Accumulated state per key: the descriptive fields of the first
record encountered plus the running quantity. -/
structure BomEntry where
  partName : String
  partType : String
  description : String
  unit : String
  quantity : ℚ
  cost : ℚ
  deriving Repr, DecidableEq

/-- One aggregation step: locate the key in the insertion-ordered
table, add the contribution, or append a fresh entry whose quantity
starts at the contribution (the source starts the fresh entry at zero
and immediately adds). -/
def addBom (p : BomPanel) (b : BomItem) :
    List (String × BomEntry) → List (String × BomEntry)
  | [] => [(bomKey b,
      ⟨b.partName, b.partType, b.description, b.unit, bomContribution p b, b.cost⟩)]
  | (k, e) :: rest =>
    if k = bomKey b then
      (k, { e with quantity := e.quantity + bomContribution p b }) :: rest
    else (k, e) :: addBom p b rest

/-- The traversal order of create_bom_page: every opening, every panel,
every product BOM record of the panel, flattened. -/
def bomContributionList (openings : List (List BomPanel)) :
    List (BomPanel × BomItem) :=
  openings.flatMap (fun op => op.flatMap (fun p => p.boms.map (fun b => (p, b))))

def aggregateBom (openings : List (List BomPanel)) : List (String × BomEntry) :=
  (bomContributionList openings).foldl (fun acc pb => addBom pb.1 pb.2 acc) []

/-- One displayed BOM table row; the total cost column is the
accumulated quantity times the unit cost. -/
structure BomRow where
  partName : String
  quantity : ℚ
  unitCost : ℚ
  totalCost : ℚ
  deriving Repr, DecidableEq

def bomRows (openings : List (List BomPanel)) : List BomRow :=
  (aggregateBom openings).map (fun ke =>
    ⟨ke.2.partName, ke.2.quantity, ke.2.cost, ke.2.quantity * ke.2.cost⟩)

def bomGrandTotal (openings : List (List BomPanel)) : ℚ :=
  ((bomRows openings).map (·.totalCost)).sum

/-- The emitted table: the item rows followed by the appended grand
total row. -/
def bomTable (openings : List (List BomPanel)) : List BomRow :=
  bomRows openings ++ [⟨"TOTAL:", 0, 0, bomGrandTotal openings⟩]

/-- Accumulated quantity stored under a key, zero when absent. -/
def qtyOf : List (String × BomEntry) → String → ℚ
  | [], _ => 0
  | (k, e) :: rest, key => if k = key then e.quantity else qtyOf rest key

-- ------------------------------------------------------------------
-- Concrete inputs used by witnesses and counterexamples
-- ------------------------------------------------------------------

def swingP (w : ℚ) (dir : String) : Panel :=
  { type := "Swing Door", width := w, swing_direction := dir,
    sliding_direction := "Left", glass_type := "Clear" }

def fixedP (w : ℚ) : Panel :=
  { type := "Fixed", width := w, swing_direction := "Right In",
    sliding_direction := "Left", glass_type := "Clear" }

def cornerP (w : ℚ) : Panel :=
  { type := "Corner", width := w, swing_direction := "Right In",
    sliding_direction := "Left", glass_type := "Clear" }

def slidingP (w : ℚ) (dir : String) : Panel :=
  { type := "Sliding Door", width := w, swing_direction := "Right In",
    sliding_direction := dir, glass_type := "Clear" }

-- ------------------------------------------------------------------
-- General helper lemmas
-- ------------------------------------------------------------------

theorem listSumPos (l : List ℚ) (hne : l ≠ []) (hpos : ∀ x ∈ l, 0 < x) :
    0 < l.sum := by
  match l with
  | [] => exact absurd rfl hne
  | x :: t =>
    have hx : 0 < x := hpos x (List.mem_cons_self x t)
    have ht : 0 ≤ t.sum :=
      List.sum_nonneg (fun y hy => (hpos y (List.mem_cons_of_mem x hy)).le)
    simpa [List.sum_cons] using add_pos_of_pos_of_nonneg hx ht

theorem le_listMaxQ (a : ℚ) (l : List ℚ) : a ≤ listMaxQ a l := by
  induction l generalizing a with
  | nil => exact le_rfl
  | cons x t ih =>
    calc a ≤ max a x := le_max_left a x
    _ ≤ listMaxQ (max a x) t := ih (max a x)
    _ = listMaxQ a (x :: t) := rfl

theorem totalWidth_convert (raws : List RawPanel) :
    totalWidth (convertQuotingToolData raws)
      = (raws.map (fun r => r.width.getD 36)).sum := by
  unfold totalWidth convertQuotingToolData
  rw [List.map_map]
  rfl

-- ------------------------------------------------------------------
-- C7
-- ------------------------------------------------------------------

/-- Claim C7: for an elevation layout with positive total width and
height, the figure is sized total width times scale by height times
scale with scale the minimum of the two budget ratios, so the rendered
aspect ratio equals total width over height. -/
theorem C7_elevation_aspect_ratio (panels : List Panel) (height : ℚ)
    (htw : 0 < totalWidth panels) (hh : 0 < height) :
    elevFigWidth (totalWidth panels) height / elevFigHeight (totalWidth panels) height
      = totalWidth panels / height := by
  have hs : 0 < elevScale (totalWidth panels) height := by
    have h1 : 0 < 12 / totalWidth panels := by positivity
    have h2 : 0 < 6 / height := by positivity
    exact lt_min h1 h2
  unfold elevFigWidth elevFigHeight
  rw [mul_comm (totalWidth panels), mul_comm height,
    mul_div_mul_left _ _ hs.ne']

theorem C7_elevation_aspect_ratio_witness :
    0 < totalWidth [fixedP 36, fixedP 48] ∧ 0 < (96 : ℚ) ∧
      elevFigWidth (totalWidth [fixedP 36, fixedP 48]) 96
          / elevFigHeight (totalWidth [fixedP 36, fixedP 48]) 96
        = totalWidth [fixedP 36, fixedP 48] / 96 :=
  ⟨by norm_num [totalWidth, fixedP], by norm_num,
    C7_elevation_aspect_ratio [fixedP 36, fixedP 48] 96
      (by norm_num [totalWidth, fixedP]) (by norm_num)⟩

-- ------------------------------------------------------------------
-- C4
-- ------------------------------------------------------------------

def c4RawRecord : RawPanel :=
  ⟨some "FIXED_PANEL", some (-5), none, none, none, none⟩

/-- Claim C4 counterexample: a raw record with width minus five is
normalized into a panel carrying that width; no validation failure of
any kind occurs, so the claim that normalization fails with a
validation error for nonpositive widths is false on the code. -/
theorem C4_counterexample_no_validation :
    (convertQuotingToolData [c4RawRecord]).map (·.width) = [(-5 : ℚ)]
      ∧ (convertQuotingToolData [c4RawRecord]).length = 1 :=
  ⟨by decide, by decide⟩

/-- Claim C4 as amended: normalization performs no width validation;
a raw record whose width is nonpositive is converted to a panel that
carries that width unchanged. -/
theorem C4_amended_width_passthrough (r : RawPanel) (w : ℚ)
    (hw : r.width = some w) (hnp : w ≤ 0) :
    (convertQuotingToolData [r]).map (·.width) = [w] := by
  simp [convertQuotingToolData, hw]

theorem C4_amended_width_passthrough_witness :
    c4RawRecord.width = some (-5) ∧ (-5 : ℚ) ≤ 0
      ∧ (convertQuotingToolData [c4RawRecord]).map (·.width) = [(-5 : ℚ)] :=
  ⟨rfl, by norm_num, C4_amended_width_passthrough c4RawRecord (-5) rfl (by norm_num)⟩

-- ------------------------------------------------------------------
-- C5
-- ------------------------------------------------------------------

/-- Claim C5: in the elevation layout, a Fixed panel draws a one-inch
stile on each side, except that the outer stile of the first and of
the last panel is the four-inch terminating stile, and a side whose
immediate neighbor is a sliding door draws no stile rectangle at all;
the emitted stile rectangles are exactly the non-hidden ones. -/
theorem C5_fixed_stile_rules (panels : List Panel) (idx : ℕ) (px pw ph : ℚ)
    (hidx : idx < panels.length)
    (hfix : (panels.getD idx defaultPanel).type = "Fixed") :
    ((fixedPanelElevPrims panels idx px pw ph).filter isStileRect
      = (if (fixedStileInfo panels idx).hideLeft then []
         else [EPrim.rect "stile" px 0 (fixedStileInfo panels idx).leftW ph])
        ++ (if (fixedStileInfo panels idx).hideRight then []
            else [EPrim.rect "stile" (px + pw - (fixedStileInfo panels idx).rightW) 0
                    (fixedStileInfo panels idx).rightW ph]))
    ∧ ((fixedStileInfo panels idx).leftW = if idx = 0 then 4 else 1)
    ∧ ((fixedStileInfo panels idx).rightW = if idx = panels.length - 1 then 4 else 1)
    ∧ ((fixedStileInfo panels idx).hideLeft = true
        ↔ 0 < idx ∧ (panels.getD (idx - 1) defaultPanel).type = "Sliding Door")
    ∧ ((fixedStileInfo panels idx).hideRight = true
        ↔ idx < panels.length - 1
          ∧ (panels.getD (idx + 1) defaultPanel).type = "Sliding Door") := by
  refine ⟨?_, ?_, ?_, ?_, ?_⟩
  · by_cases hl : (fixedStileInfo panels idx).hideLeft
      <;> by_cases hr : (fixedStileInfo panels idx).hideRight
      <;> simp [fixedPanelElevPrims, hl, hr, isStileRect]
  · simp [fixedStileInfo, FIXED_TERMINATING_STILE, FIXED_STILE]
  · simp [fixedStileInfo, FIXED_TERMINATING_STILE, FIXED_STILE]
  · simp [fixedStileInfo]
  · simp [fixedStileInfo]

theorem C5_fixed_stile_rules_witness :
    1 < [slidingP 48 "Left", fixedP 36, fixedP 30].length
    ∧ ([slidingP 48 "Left", fixedP 36, fixedP 30].getD 1 defaultPanel).type = "Fixed"
    ∧ (((fixedPanelElevPrims [slidingP 48 "Left", fixedP 36, fixedP 30] 1 48 36 96).filter
          isStileRect
        = (if (fixedStileInfo [slidingP 48 "Left", fixedP 36, fixedP 30] 1).hideLeft then []
           else [EPrim.rect "stile" 48 0
                   (fixedStileInfo [slidingP 48 "Left", fixedP 36, fixedP 30] 1).leftW 96])
          ++ (if (fixedStileInfo [slidingP 48 "Left", fixedP 36, fixedP 30] 1).hideRight then []
              else [EPrim.rect "stile"
                      (48 + 36 - (fixedStileInfo [slidingP 48 "Left", fixedP 36, fixedP 30] 1).rightW)
                      0 (fixedStileInfo [slidingP 48 "Left", fixedP 36, fixedP 30] 1).rightW 96]))
      ∧ ((fixedStileInfo [slidingP 48 "Left", fixedP 36, fixedP 30] 1).leftW
          = if (1 : ℕ) = 0 then 4 else 1)
      ∧ ((fixedStileInfo [slidingP 48 "Left", fixedP 36, fixedP 30] 1).rightW
          = if (1 : ℕ) = [slidingP 48 "Left", fixedP 36, fixedP 30].length - 1 then 4 else 1)
      ∧ ((fixedStileInfo [slidingP 48 "Left", fixedP 36, fixedP 30] 1).hideLeft = true
          ↔ 0 < (1 : ℕ)
            ∧ ([slidingP 48 "Left", fixedP 36, fixedP 30].getD 0 defaultPanel).type
                = "Sliding Door")
      ∧ ((fixedStileInfo [slidingP 48 "Left", fixedP 36, fixedP 30] 1).hideRight = true
          ↔ 1 < [slidingP 48 "Left", fixedP 36, fixedP 30].length - 1
            ∧ ([slidingP 48 "Left", fixedP 36, fixedP 30].getD 2 defaultPanel).type
                = "Sliding Door")) :=
  ⟨by decide, by decide,
    C5_fixed_stile_rules [slidingP 48 "Left", fixedP 36, fixedP 30] 1 48 36 96
      (by decide) (by decide)⟩

-- ------------------------------------------------------------------
-- C2
-- ------------------------------------------------------------------

/-- Claim C2: a plan request on a sequence with no swing door and no
sliding door fails with the at-least-one-door error and emits no
scene, while an elevation request on an opening with at least one
panel (with the positive widths and heights of the data model)
succeeds. -/
theorem C2_plan_needs_door_elevation_succeeds
    (panels : List Panel) (raws : List RawPanel)
    (hnd : ∀ p ∈ panels, p.type ≠ "Swing Door" ∧ p.type ≠ "Sliding Door")
    (hne : raws ≠ [])
    (hw : ∀ r ∈ raws, 0 < r.width.getD 36)
    (hh : ∀ r ∈ raws, 0 < r.height.getD 96) :
    (generatePlanScene panels
        = .error "Plan view requires at least one door (swing or sliding)"
      ∧ strHas "Plan view requires at least one door (swing or sliding)"
          "at least one door" = true)
    ∧ isOkE (generateElevationDrawing raws) = true := by
  constructor
  · constructor
    · have hsw : (panels.map (·.type)).any (· == "Swing Door") = false := by
        simp only [List.any_eq_false]
        intro t ht
        obtain ⟨p, hp, rfl⟩ := List.mem_map.mp ht
        simpa using (hnd p hp).1
      have hsl : (panels.map (·.type)).any (· == "Sliding Door") = false := by
        simp only [List.any_eq_false]
        intro t ht
        obtain ⟨p, hp, rfl⟩ := List.mem_map.mp ht
        simpa using (hnd p hp).2
      simp [generatePlanScene, hsw, hsl]
    · decide
  · match raws, hne with
    | r :: rs, _ =>
      have hwpos : 0 < totalWidth (convertQuotingToolData (r :: rs)) := by
        rw [totalWidth_convert]
        refine listSumPos _ (by simp) ?_
        intro x hx
        obtain ⟨q, hq, rfl⟩ := List.mem_map.mp hx
        exact hw q hq
      have hhpos : 0 < listMaxQ (r.height.getD 96)
          (rs.map (fun q => q.height.getD 96)) :=
        lt_of_lt_of_le (hh r (List.mem_cons_self r rs)) (le_listMaxQ _ _)
      have hcond : ¬(totalWidth (convertQuotingToolData (r :: rs)) ≤ 0
          ∨ listMaxQ (r.height.getD 96) (rs.map (fun q => q.height.getD 96)) ≤ 0) := by
        push_neg
        exact ⟨hwpos, hhpos⟩
      simp only [generateElevationDrawing]
      rw [if_neg hcond]
      rfl

theorem C2_plan_needs_door_elevation_succeeds_witness :
    (∀ p ∈ [fixedP 36, cornerP 6, fixedP 30],
        p.type ≠ "Swing Door" ∧ p.type ≠ "Sliding Door")
    ∧ ([(⟨none, some 36, some 96, none, none, none⟩ : RawPanel)] ≠ [])
    ∧ ((generatePlanScene [fixedP 36, cornerP 6, fixedP 30]
          = .error "Plan view requires at least one door (swing or sliding)"
        ∧ strHas "Plan view requires at least one door (swing or sliding)"
            "at least one door" = true)
      ∧ isOkE (generateElevationDrawing
          [(⟨none, some 36, some 96, none, none, none⟩ : RawPanel)]) = true) :=
  ⟨by decide, by decide,
    C2_plan_needs_door_elevation_succeeds [fixedP 36, cornerP 6, fixedP 30]
      [(⟨none, some 36, some 96, none, none, none⟩ : RawPanel)]
      (by decide) (by decide)
      (by intro r hr; simp at hr; subst hr; norm_num)
      (by intro r hr; simp at hr; subst hr; norm_num)⟩

-- ------------------------------------------------------------------
-- Observation helpers and loop lemmas
-- ------------------------------------------------------------------

/-- Door-leaf count of a plan result, zero on error. -/
def leafCountOf (e : Except String (List Prim)) : ℕ :=
  match e with
  | .ok s => s.countP isLeaf
  | .error _ => 0

/-- Sliding-visual count of a plan result, zero on error. -/
def slidingCountOf (e : Except String (List Prim)) : ℕ :=
  match e with
  | .ok s => s.countP isSlidingPrim
  | .error _ => 0

theorem segItemsH_countP_isLeaf (wy wh fw dt : ℚ) (ds : String) (n : ℕ) :
    ∀ (items : List (ℚ × String)) (idx fc : ℕ) (x : ℚ),
      (segItemsH wy wh fw dt ds n idx fc x items).countP isLeaf
        = items.countP (fun it => it.2 == "Swing Door") := by
  intro items
  induction items with
  | nil => intro idx fc x; simp [segItemsH]
  | cons it rest ih =>
    intro idx fc x
    obtain ⟨w, t⟩ := it
    by_cases hf : t = "Fixed"
    · simp [segItemsH, hf, List.countP_append, List.countP_cons, isLeaf,
        fixedBodyH, apply_ite (List.countP isLeaf), ih]
    · by_cases hs : t = "Swing Door"
      · simp [segItemsH, hf, hs, List.countP_append, List.countP_cons, isLeaf,
          swingBodyH, apply_ite (List.countP isLeaf), ih]
      · simp [segItemsH, hf, hs, List.countP_append, List.countP_cons, isLeaf,
          apply_ite (List.countP isLeaf), ih]

theorem segItemsV_countP_isLeaf (wx ww fw dt : ℚ) (ds : String) (n : ℕ) :
    ∀ (items : List (ℚ × String)) (idx fc : ℕ) (y : ℚ),
      (segItemsV wx ww fw dt ds n idx fc y items).countP isLeaf
        = items.countP (fun it => it.2 == "Swing Door") := by
  intro items
  induction items with
  | nil => intro idx fc y; simp [segItemsV]
  | cons it rest ih =>
    intro idx fc y
    obtain ⟨w, t⟩ := it
    by_cases hf : t = "Fixed"
    · simp [segItemsV, hf, List.countP_append, List.countP_cons, isLeaf,
        fixedBodyV, apply_ite (List.countP isLeaf), ih]
    · by_cases hs : t = "Swing Door"
      · simp [segItemsV, hf, hs, List.countP_append, List.countP_cons, isLeaf,
          swingBodyV, apply_ite (List.countP isLeaf), ih]
      · simp [segItemsV, hf, hs, List.countP_append, List.countP_cons, isLeaf,
          apply_ite (List.countP isLeaf), ih]

theorem slidItemsH_countP_isLeaf (wy wh fw dt : ℚ) (ds : String) (n : ℕ) :
    ∀ (items : List (ℚ × String)) (idx fc : ℕ) (x : ℚ),
      (slidItemsH wy wh fw dt ds n idx fc x items).countP isLeaf
        = items.countP (fun it => it.2 == "Sliding Door") := by
  intro items
  induction items with
  | nil => intro idx fc x; simp [slidItemsH]
  | cons it rest ih =>
    intro idx fc x
    obtain ⟨w, t⟩ := it
    by_cases hf : t = "Fixed"
    · simp [slidItemsH, hf, List.countP_append, List.countP_cons, isLeaf,
        fixedBodyH, apply_ite (List.countP isLeaf), ih]
    · by_cases hs : t = "Sliding Door"
      · simp [slidItemsH, hf, hs, List.countP_append, List.countP_cons, isLeaf,
          slidingBodyH, apply_ite (List.countP isLeaf), ih]
      · simp [slidItemsH, hf, hs, List.countP_append, List.countP_cons, isLeaf,
          apply_ite (List.countP isLeaf), ih]

theorem slidItemsV_countP_isLeaf (wx ww fw dt : ℚ) (ds : String) (n : ℕ) :
    ∀ (items : List (ℚ × String)) (idx fc : ℕ) (y : ℚ),
      (slidItemsV wx ww fw dt ds n idx fc y items).countP isLeaf
        = items.countP (fun it => it.2 == "Sliding Door") := by
  intro items
  induction items with
  | nil => intro idx fc y; simp [slidItemsV]
  | cons it rest ih =>
    intro idx fc y
    obtain ⟨w, t⟩ := it
    by_cases hf : t = "Fixed"
    · simp [slidItemsV, hf, List.countP_append, List.countP_cons, isLeaf,
        fixedBodyV, apply_ite (List.countP isLeaf), ih]
    · by_cases hs : t = "Sliding Door"
      · simp [slidItemsV, hf, hs, List.countP_append, List.countP_cons, isLeaf,
          slidingBodyV, apply_ite (List.countP isLeaf), ih]
      · simp [slidItemsV, hf, hs, List.countP_append, List.countP_cons, isLeaf,
          apply_ite (List.countP isLeaf), ih]

theorem segItemsH_filter_isWallExt (wy wh fw dt : ℚ) (ds : String) (n : ℕ) :
    ∀ (items : List (ℚ × String)) (idx fc : ℕ) (x : ℚ),
      (segItemsH wy wh fw dt ds n idx fc x items).filter isWallExt = [] := by
  intro items
  induction items with
  | nil => intro idx fc x; simp [segItemsH]
  | cons it rest ih =>
    intro idx fc x
    obtain ⟨w, t⟩ := it
    by_cases hf : t = "Fixed"
    · simp [segItemsH, hf, List.filter_append, isWallExt,
        fixedBodyH, apply_ite (List.filter isWallExt), ih]
    · by_cases hs : t = "Swing Door"
      · simp [segItemsH, hf, hs, List.filter_append, isWallExt,
          swingBodyH, apply_ite (List.filter isWallExt), ih]
      · simp [segItemsH, hf, hs, List.filter_append, isWallExt,
          apply_ite (List.filter isWallExt), ih]

theorem segItemsV_filter_isWallExt (wx ww fw dt : ℚ) (ds : String) (n : ℕ) :
    ∀ (items : List (ℚ × String)) (idx fc : ℕ) (y : ℚ),
      (segItemsV wx ww fw dt ds n idx fc y items).filter isWallExt = [] := by
  intro items
  induction items with
  | nil => intro idx fc y; simp [segItemsV]
  | cons it rest ih =>
    intro idx fc y
    obtain ⟨w, t⟩ := it
    by_cases hf : t = "Fixed"
    · simp [segItemsV, hf, List.filter_append, isWallExt,
        fixedBodyV, apply_ite (List.filter isWallExt), ih]
    · by_cases hs : t = "Swing Door"
      · simp [segItemsV, hf, hs, List.filter_append, isWallExt,
          swingBodyV, apply_ite (List.filter isWallExt), ih]
      · simp [segItemsV, hf, hs, List.filter_append, isWallExt,
          apply_ite (List.filter isWallExt), ih]

theorem slidItemsH_filter_isWallExt (wy wh fw dt : ℚ) (ds : String) (n : ℕ) :
    ∀ (items : List (ℚ × String)) (idx fc : ℕ) (x : ℚ),
      (slidItemsH wy wh fw dt ds n idx fc x items).filter isWallExt = [] := by
  intro items
  induction items with
  | nil => intro idx fc x; simp [slidItemsH]
  | cons it rest ih =>
    intro idx fc x
    obtain ⟨w, t⟩ := it
    by_cases hf : t = "Fixed"
    · simp [slidItemsH, hf, List.filter_append, isWallExt,
        fixedBodyH, apply_ite (List.filter isWallExt), ih]
    · by_cases hs : t = "Sliding Door"
      · simp [slidItemsH, hf, hs, List.filter_append, isWallExt,
          slidingBodyH, apply_ite (List.filter isWallExt), ih]
      · simp [slidItemsH, hf, hs, List.filter_append, isWallExt,
          apply_ite (List.filter isWallExt), ih]

theorem slidItemsV_filter_isWallExt (wx ww fw dt : ℚ) (ds : String) (n : ℕ) :
    ∀ (items : List (ℚ × String)) (idx fc : ℕ) (y : ℚ),
      (slidItemsV wx ww fw dt ds n idx fc y items).filter isWallExt = [] := by
  intro items
  induction items with
  | nil => intro idx fc y; simp [slidItemsV]
  | cons it rest ih =>
    intro idx fc y
    obtain ⟨w, t⟩ := it
    by_cases hf : t = "Fixed"
    · simp [slidItemsV, hf, List.filter_append, isWallExt,
        fixedBodyV, apply_ite (List.filter isWallExt), ih]
    · by_cases hs : t = "Sliding Door"
      · simp [slidItemsV, hf, hs, List.filter_append, isWallExt,
          slidingBodyV, apply_ite (List.filter isWallExt), ih]
      · simp [slidItemsV, hf, hs, List.filter_append, isWallExt,
          apply_ite (List.filter isWallExt), ih]

theorem segItemsH_countP_isSlidingPrim (wy wh fw dt : ℚ) (ds : String) (n : ℕ) :
    ∀ (items : List (ℚ × String)) (idx fc : ℕ) (x : ℚ),
      (segItemsH wy wh fw dt ds n idx fc x items).countP isSlidingPrim = 0 := by
  intro items
  induction items with
  | nil => intro idx fc x; simp [segItemsH]
  | cons it rest ih =>
    intro idx fc x
    obtain ⟨w, t⟩ := it
    by_cases hf : t = "Fixed"
    · simp [segItemsH, hf, List.countP_append, List.countP_cons, isSlidingPrim,
        fixedBodyH, apply_ite (List.countP isSlidingPrim), ih]
    · by_cases hs : t = "Swing Door"
      · simp [segItemsH, hf, hs, List.countP_append, List.countP_cons, isSlidingPrim,
          swingBodyH, apply_ite (List.countP isSlidingPrim), ih]
      · simp [segItemsH, hf, hs, List.countP_append, List.countP_cons, isSlidingPrim,
          apply_ite (List.countP isSlidingPrim), ih]

theorem segItemsV_countP_isSlidingPrim (wx ww fw dt : ℚ) (ds : String) (n : ℕ) :
    ∀ (items : List (ℚ × String)) (idx fc : ℕ) (y : ℚ),
      (segItemsV wx ww fw dt ds n idx fc y items).countP isSlidingPrim = 0 := by
  intro items
  induction items with
  | nil => intro idx fc y; simp [segItemsV]
  | cons it rest ih =>
    intro idx fc y
    obtain ⟨w, t⟩ := it
    by_cases hf : t = "Fixed"
    · simp [segItemsV, hf, List.countP_append, List.countP_cons, isSlidingPrim,
        fixedBodyV, apply_ite (List.countP isSlidingPrim), ih]
    · by_cases hs : t = "Swing Door"
      · simp [segItemsV, hf, hs, List.countP_append, List.countP_cons, isSlidingPrim,
          swingBodyV, apply_ite (List.countP isSlidingPrim), ih]
      · simp [segItemsV, hf, hs, List.countP_append, List.countP_cons, isSlidingPrim,
          apply_ite (List.countP isSlidingPrim), ih]

theorem dimPrimsH_countP_isLeaf (dimY : ℚ) :
    ∀ (ws : List ℚ) (x : ℚ), (dimPrimsH dimY x ws).countP isLeaf = 0 := by
  intro ws
  induction ws with
  | nil => intro x; simp [dimPrimsH]
  | cons w rest ih =>
    intro x
    simp [dimPrimsH, List.countP_append, List.countP_cons, isLeaf, ih]

theorem dimPrimsV_countP_isLeaf (dimX : ℚ) :
    ∀ (ws : List ℚ) (y : ℚ), (dimPrimsV dimX y ws).countP isLeaf = 0 := by
  intro ws
  induction ws with
  | nil => intro y; simp [dimPrimsV]
  | cons w rest ih =>
    intro y
    simp [dimPrimsV, List.countP_append, List.countP_cons, isLeaf, ih]

theorem dimPrimsH_filter_isWallExt (dimY : ℚ) :
    ∀ (ws : List ℚ) (x : ℚ), (dimPrimsH dimY x ws).filter isWallExt = [] := by
  intro ws
  induction ws with
  | nil => intro x; simp [dimPrimsH]
  | cons w rest ih =>
    intro x
    simp [dimPrimsH, List.filter_append, isWallExt, ih]

theorem dimPrimsV_filter_isWallExt (dimX : ℚ) :
    ∀ (ws : List ℚ) (y : ℚ), (dimPrimsV dimX y ws).filter isWallExt = [] := by
  intro ws
  induction ws with
  | nil => intro y; simp [dimPrimsV]
  | cons w rest ih =>
    intro y
    simp [dimPrimsV, List.filter_append, isWallExt, ih]

theorem dimPrimsH_countP_isSlidingPrim (dimY : ℚ) :
    ∀ (ws : List ℚ) (x : ℚ), (dimPrimsH dimY x ws).countP isSlidingPrim = 0 := by
  intro ws
  induction ws with
  | nil => intro x; simp [dimPrimsH]
  | cons w rest ih =>
    intro x
    simp [dimPrimsH, List.countP_append, List.countP_cons, isSlidingPrim, ih]

theorem dimPrimsV_countP_isSlidingPrim (dimX : ℚ) :
    ∀ (ws : List ℚ) (y : ℚ), (dimPrimsV dimX y ws).countP isSlidingPrim = 0 := by
  intro ws
  induction ws with
  | nil => intro y; simp [dimPrimsV]
  | cons w rest ih =>
    intro y
    simp [dimPrimsV, List.countP_append, List.countP_cons, isSlidingPrim, ih]

-- Segment-level observations.

theorem hSeg_countP_isLeaf (widths : List ℚ) (ptypes : List String)
    (sx sy : ℚ) (ds : String) (wt fd dt : ℚ) (le re : Bool) :
    (drawHorizontalWallSegment widths ptypes sx sy ds wt fd dt le re).countP isLeaf
      = (widths.zip ptypes).countP (fun it => it.2 == "Swing Door") := by
  by_cases h : widths = []
  · subst h; simp [drawHorizontalWallSegment]
  · simp [drawHorizontalWallSegment, h, List.countP_append, List.countP_cons,
      isLeaf, apply_ite (List.countP isLeaf), segItemsH_countP_isLeaf]

theorem vSeg_countP_isLeaf (widths : List ℚ) (ptypes : List String)
    (sx sy : ℚ) (ds : String) (wt fd dt : ℚ) (be te : Bool) :
    (drawVerticalWallSegment widths ptypes sx sy ds wt fd dt be te).countP isLeaf
      = (widths.zip ptypes).countP (fun it => it.2 == "Swing Door") := by
  by_cases h : widths = []
  · subst h; simp [drawVerticalWallSegment]
  · simp [drawVerticalWallSegment, h, List.countP_append, List.countP_cons,
      isLeaf, apply_ite (List.countP isLeaf), segItemsV_countP_isLeaf]

theorem hSlide_countP_isLeaf (widths : List ℚ) (ptypes : List String)
    (sx sy : ℚ) (ds : String) (wt fd dt : ℚ) (le re : Bool) :
    (drawHorizontalSlidingSegment widths ptypes sx sy ds wt fd dt le re).countP isLeaf
      = (widths.zip ptypes).countP (fun it => it.2 == "Sliding Door") := by
  by_cases h : widths = []
  · subst h; simp [drawHorizontalSlidingSegment]
  · simp [drawHorizontalSlidingSegment, h, List.countP_append, List.countP_cons,
      isLeaf, apply_ite (List.countP isLeaf), slidItemsH_countP_isLeaf]

theorem vSlide_countP_isLeaf (widths : List ℚ) (ptypes : List String)
    (sx sy : ℚ) (ds : String) (wt fd dt : ℚ) (be te : Bool) :
    (drawVerticalSlidingSegment widths ptypes sx sy ds wt fd dt be te).countP isLeaf
      = (widths.zip ptypes).countP (fun it => it.2 == "Sliding Door") := by
  by_cases h : widths = []
  · subst h; simp [drawVerticalSlidingSegment]
  · simp [drawVerticalSlidingSegment, h, List.countP_append, List.countP_cons,
      isLeaf, apply_ite (List.countP isLeaf), slidItemsV_countP_isLeaf]

theorem hSeg_filter_isWallExt (widths : List ℚ) (ptypes : List String)
    (sx sy : ℚ) (ds : String) (wt fd dt : ℚ) (le re : Bool) (hne : widths ≠ []) :
    (drawHorizontalWallSegment widths ptypes sx sy ds wt fd dt le re).filter isWallExt
      = (if le then [Prim.wallExt (sx - 20) (sy - wt / 2) 20 wt] else [])
        ++ (if re then [Prim.wallExt (sx + widths.sum) (sy - wt / 2) 20 wt] else []) := by
  simp [drawHorizontalWallSegment, hne, List.filter_append, isWallExt,
    apply_ite (List.filter isWallExt), segItemsH_filter_isWallExt]

theorem vSeg_filter_isWallExt (widths : List ℚ) (ptypes : List String)
    (sx sy : ℚ) (ds : String) (wt fd dt : ℚ) (be te : Bool) (hne : widths ≠ []) :
    (drawVerticalWallSegment widths ptypes sx sy ds wt fd dt be te).filter isWallExt
      = (if be then [Prim.wallExt (sx - wt / 2) (sy - 20) wt 20] else [])
        ++ (if te then [Prim.wallExt (sx - wt / 2) (sy + widths.sum) wt 20] else []) := by
  simp [drawVerticalWallSegment, hne, List.filter_append, isWallExt,
    apply_ite (List.filter isWallExt), segItemsV_filter_isWallExt]

theorem hSlide_filter_isWallExt (widths : List ℚ) (ptypes : List String)
    (sx sy : ℚ) (ds : String) (wt fd dt : ℚ) (le re : Bool) (hne : widths ≠ []) :
    (drawHorizontalSlidingSegment widths ptypes sx sy ds wt fd dt le re).filter isWallExt
      = (if le then [Prim.wallExt (sx - 20) (sy - wt / 2) 20 wt] else [])
        ++ (if re then [Prim.wallExt (sx + widths.sum) (sy - wt / 2) 20 wt] else []) := by
  simp [drawHorizontalSlidingSegment, hne, List.filter_append, isWallExt,
    apply_ite (List.filter isWallExt), slidItemsH_filter_isWallExt]

theorem vSlide_filter_isWallExt (widths : List ℚ) (ptypes : List String)
    (sx sy : ℚ) (ds : String) (wt fd dt : ℚ) (be te : Bool) (hne : widths ≠ []) :
    (drawVerticalSlidingSegment widths ptypes sx sy ds wt fd dt be te).filter isWallExt
      = (if be then [Prim.wallExt (sx - wt / 2) (sy - 20) wt 20] else [])
        ++ (if te then [Prim.wallExt (sx - wt / 2) (sy + widths.sum) wt 20] else []) := by
  simp [drawVerticalSlidingSegment, hne, List.filter_append, isWallExt,
    apply_ite (List.filter isWallExt), slidItemsV_filter_isWallExt]

theorem hSeg_countP_isSlidingPrim (widths : List ℚ) (ptypes : List String)
    (sx sy : ℚ) (ds : String) (wt fd dt : ℚ) (le re : Bool) :
    (drawHorizontalWallSegment widths ptypes sx sy ds wt fd dt le re).countP
      isSlidingPrim = 0 := by
  by_cases h : widths = []
  · subst h; simp [drawHorizontalWallSegment]
  · simp [drawHorizontalWallSegment, h, List.countP_append, List.countP_cons,
      isSlidingPrim, apply_ite (List.countP isSlidingPrim),
      segItemsH_countP_isSlidingPrim]

theorem vSeg_countP_isSlidingPrim (widths : List ℚ) (ptypes : List String)
    (sx sy : ℚ) (ds : String) (wt fd dt : ℚ) (be te : Bool) :
    (drawVerticalWallSegment widths ptypes sx sy ds wt fd dt be te).countP
      isSlidingPrim = 0 := by
  by_cases h : widths = []
  · subst h; simp [drawVerticalWallSegment]
  · simp [drawVerticalWallSegment, h, List.countP_append, List.countP_cons,
      isSlidingPrim, apply_ite (List.countP isSlidingPrim),
      segItemsV_countP_isSlidingPrim]

theorem topdownSwing_countP_isLeaf (widths : List ℚ) (ptypes : List String)
    (ds : String) (wt fd dt : ℚ) :
    (drawTopdownSwingFixed widths ptypes ds wt fd dt).countP isLeaf
      = (widths.zip ptypes).countP (fun it => it.2 == "Swing Door") := by
  simp [drawTopdownSwingFixed, List.countP_append, List.countP_cons, isLeaf,
    segItemsH_countP_isLeaf, dimPrimsH_countP_isLeaf]

theorem topdownSliding_countP_isLeaf (widths : List ℚ) (ptypes : List String)
    (ds : String) (wt fd dt : ℚ) :
    (drawTopdownSlidingFixed widths ptypes ds wt fd dt).countP isLeaf
      = (widths.zip ptypes).countP (fun it => it.2 == "Sliding Door") := by
  simp [drawTopdownSlidingFixed, List.countP_append, List.countP_cons, isLeaf,
    slidItemsH_countP_isLeaf, dimPrimsH_countP_isLeaf]

theorem topdownSwing_countP_isSlidingPrim (widths : List ℚ) (ptypes : List String)
    (ds : String) (wt fd dt : ℚ) :
    (drawTopdownSwingFixed widths ptypes ds wt fd dt).countP isSlidingPrim = 0 := by
  simp [drawTopdownSwingFixed, List.countP_append, List.countP_cons, isSlidingPrim,
    segItemsH_countP_isSlidingPrim, dimPrimsH_countP_isSlidingPrim]

theorem topdownSwingCorners_countP_isSlidingPrim (widths : List ℚ)
    (ptypes : List String) (ds : String) (wt fd dt : ℚ) :
    (drawTopdownSwingFixedWithCorners widths ptypes ds wt fd dt).countP
      isSlidingPrim = 0 := by
  unfold drawTopdownSwingFixedWithCorners
  cases h : firstIdxOf "Corner" ptypes with
  | none => exact topdownSwing_countP_isSlidingPrim widths ptypes ds wt fd dt
  | some ci =>
    simp [List.countP_append, apply_ite (List.countP isSlidingPrim),
      hSeg_countP_isSlidingPrim, vSeg_countP_isSlidingPrim,
      dimPrimsH_countP_isSlidingPrim, dimPrimsV_countP_isSlidingPrim]

-- firstIdxOf helpers.

theorem firstIdxOf_eq_some_of_mem {tgt : String} :
    ∀ {l : List String}, tgt ∈ l → ∃ j, firstIdxOf tgt l = some j := by
  intro l
  induction l with
  | nil => intro h; exact absurd h (List.not_mem_nil tgt)
  | cons a rest ih =>
    intro h
    by_cases ha : a = tgt
    · exact ⟨0, by simp [firstIdxOf, ha]⟩
    · have : tgt ∈ rest := by
        cases List.mem_cons.mp h with
        | inl heq => exact absurd heq.symm ha
        | inr hm => exact hm
      obtain ⟨j, hj⟩ := ih this
      exact ⟨j + 1, by simp [firstIdxOf, ha, hj]⟩

theorem firstIdxOf_lt_length {tgt : String} :
    ∀ {l : List String} {j : ℕ}, firstIdxOf tgt l = some j → j < l.length := by
  intro l
  induction l with
  | nil => intro j h; simp [firstIdxOf] at h
  | cons a rest ih =>
    intro j h
    by_cases ha : a = tgt
    · rw [firstIdxOf, if_pos ha] at h
      have hj : j = 0 := (Option.some.inj h).symm
      subst hj
      simp only [List.length_cons]
      omega
    · rw [firstIdxOf, if_neg ha] at h
      cases hr : firstIdxOf tgt rest with
      | none =>
        rw [hr] at h
        simp at h
      | some j0 =>
        rw [hr] at h
        simp at h
        have := ih hr
        simp only [List.length_cons]
        omega

theorem firstIdxOf_append_left {tgt : String} :
    ∀ {l1 : List String} {j : ℕ} (l2 : List String),
      firstIdxOf tgt l1 = some j → firstIdxOf tgt (l1 ++ l2) = some j := by
  intro l1
  induction l1 with
  | nil => intro j l2 h; simp [firstIdxOf] at h
  | cons a rest ih =>
    intro j l2 h
    by_cases ha : a = tgt
    · rw [firstIdxOf, if_pos ha] at h
      rw [List.cons_append, firstIdxOf, if_pos ha]
      exact h
    · rw [firstIdxOf, if_neg ha] at h
      rw [List.cons_append, firstIdxOf, if_neg ha]
      cases hr : firstIdxOf tgt rest with
      | none =>
        rw [hr] at h
        simp at h
      | some j0 =>
        rw [hr] at h
        rw [ih l2 hr]
        exact h

theorem firstIdxOf_append_of_not_mem {tgt : String} :
    ∀ {l1 : List String} (l2 : List String), (∀ s ∈ l1, s ≠ tgt) →
      firstIdxOf tgt (l1 ++ l2) = (firstIdxOf tgt l2).map (· + l1.length) := by
  intro l1
  induction l1 with
  | nil =>
    intro l2 _
    simp
  | cons a rest ih =>
    intro l2 hno
    have ha : a ≠ tgt := hno a (List.mem_cons_self a rest)
    have hrest : ∀ s ∈ rest, s ≠ tgt := fun s hs => hno s (List.mem_cons_of_mem a hs)
    rw [List.cons_append, firstIdxOf, if_neg ha, ih l2 hrest, Option.map_map]
    cases firstIdxOf tgt l2 with
    | none => rfl
    | some j =>
      simp [Function.comp]

/-- The first corner index of a type list of the shape around one
corner. -/
theorem firstIdxOf_corner_split (TA TB : List String)
    (hA : ∀ s ∈ TA, s ≠ "Corner") :
    firstIdxOf "Corner" (TA ++ "Corner" :: TB) = some TA.length := by
  rw [firstIdxOf_append_of_not_mem ("Corner" :: TB) hA]
  simp [firstIdxOf]

-- Counting helpers over type lists.

theorem countP_door_split (l : List String) :
    l.countP (fun t => t == "Swing Door" || t == "Sliding Door")
      = l.countP (· == "Swing Door") + l.countP (· == "Sliding Door") := by
  induction l with
  | nil => simp
  | cons t rest ih =>
    by_cases h1 : t = "Swing Door"
    · subst h1
      simp [List.countP_cons, ih]
      omega
    · by_cases h2 : t = "Sliding Door"
      · subst h2
        simp [List.countP_cons, ih]
        omega
      · simp [List.countP_cons, h1, h2, ih]

def c3Panels : List Panel :=
  [swingP 36 "Right In", cornerP 6, fixedP 36, cornerP 6, fixedP 36]

/-- Claim C3 counterexample: a plan request with two Corner panels
and a door succeeds (no error of any kind is reported), so the claim
that multi-corner sequences are rejected with an unsupported
configuration error is false on the code. -/
theorem C3_counterexample_multi_corner_no_error :
    isOkE (generatePlanScene c3Panels) = true
      ∧ 2 ≤ (c3Panels.map (·.type)).countP (· == "Corner") := by
  exact ⟨by decide, by decide⟩

/-- Claim C3 as amended: a plan request whose sequence has at least
one door panel and more than one Corner panel succeeds silently; the
engine segments at the first corner only and reports no error for the
remaining corners. -/
theorem C3_amended_silent_first_corner (panels : List Panel)
    (hdoor : ((panels.map (·.type)).any (· == "Swing Door")
        || (panels.map (·.type)).any (· == "Sliding Door")) = true)
    (hcc : 2 ≤ (panels.map (·.type)).countP (· == "Corner")) :
    isOkE (generatePlanScene panels) = true := by
  simp only [generatePlanScene]
  rw [hdoor]
  simp only [if_true]
  by_cases hs : ((panels.map (·.type)).any (· == "Swing Door")) = true
  · rw [if_pos hs]
    by_cases hc : ((panels.map (·.type)).any (· == "Corner")) = true
    · rw [if_pos hc]; rfl
    · rw [if_neg hc]; rfl
  · rw [if_neg hs]
    by_cases hc : ((panels.map (·.type)).any (· == "Corner")) = true
    · rw [if_pos hc]; rfl
    · rw [if_neg hc]; rfl

theorem C3_amended_silent_first_corner_witness :
    (((c3Panels.map (·.type)).any (· == "Swing Door")
        || (c3Panels.map (·.type)).any (· == "Sliding Door")) = true)
    ∧ 2 ≤ (c3Panels.map (·.type)).countP (· == "Corner")
    ∧ isOkE (generatePlanScene c3Panels) = true :=
  ⟨by decide, by decide,
    C3_amended_silent_first_corner c3Panels (by decide) (by decide)⟩

/-- Claim C9: when the sequence contains a swing door, the plan view
takes the swing-door layout path even when sliding doors are also
present, and the resulting scene contains no sliding leaf, no track
line and no sliding direction arrow, because the swing-path routines
have no sliding-door branch. -/
theorem C9_swing_path_no_sliding_visuals (panels : List Panel)
    (hsw : (panels.map (·.type)).any (· == "Swing Door") = true)
    (hsl : (panels.map (·.type)).any (· == "Sliding Door") = true) :
    ∃ scene, generatePlanScene panels = .ok scene
      ∧ scene.countP isSlidingPrim = 0 := by
  simp only [generatePlanScene]
  rw [hsw]
  simp only [Bool.true_or, if_true]
  by_cases hc : ((panels.map (·.type)).any (· == "Corner")) = true
  · rw [if_pos hc]
    exact ⟨_, rfl, topdownSwingCorners_countP_isSlidingPrim _ _ _ _ _ _⟩
  · rw [if_neg hc]
    exact ⟨_, rfl, topdownSwing_countP_isSlidingPrim _ _ _ _ _ _⟩

theorem C9_swing_path_no_sliding_visuals_witness :
    ((([swingP 30 "Right In", slidingP 48 "Left"]).map (·.type)).any
        (· == "Swing Door") = true)
    ∧ ((([swingP 30 "Right In", slidingP 48 "Left"]).map (·.type)).any
        (· == "Sliding Door") = true)
    ∧ ∃ scene, generatePlanScene [swingP 30 "Right In", slidingP 48 "Left"] = .ok scene
        ∧ scene.countP isSlidingPrim = 0 :=
  ⟨by decide, by decide,
    C9_swing_path_no_sliding_visuals [swingP 30 "Right In", slidingP 48 "Left"]
      (by decide) (by decide)⟩

/-- Expected swing geometry of a horizontal plan run: one leaf, one
arc and one tip arrow for each Swing Door panel in positional order,
with the hinge frame depth in from the left jamb and the arc in the
upper right quadrant for a direction containing Left, else the hinge
frame depth in from the right jamb and the arc in the upper left
quadrant; the leaf is the clear-width rectangle rotated 90 degrees
about the hinge and the arrow sits at the arc tip. -/
def swingGeomListH (wallY frameW doorTh : ℚ) (doorSwing : String) :
    ℚ → List (ℚ × String) → List Prim
  | _, [] => []
  | x, (w, t) :: rest =>
    (if t = "Swing Door" then
       let hingeX : ℚ := if strHas doorSwing "Left" then x + frameW else (x + w) - frameW
       let doorLen : ℚ := w - 2 * frameW
       let tipX : ℚ := if strHas doorSwing "Left" then hingeX else hingeX - doorLen
       let tipY : ℚ := if strHas doorSwing "Left" then wallY + doorLen else wallY
       [Prim.doorLeaf hingeX wallY doorLen doorTh 90,
        Prim.arc hingeX wallY doorLen (if strHas doorSwing "Left" then 0 else 90)
          (if strHas doorSwing "Left" then 90 else 180),
        Prim.arrow "arc-tip" (tipX - 7) (tipY - 7) tipX tipY]
     else []) ++ swingGeomListH wallY frameW doorTh doorSwing (x + w) rest

theorem segItemsH_filter_isSwingGeom (wy wh fw dt : ℚ) (ds : String) (n : ℕ) :
    ∀ (items : List (ℚ × String)) (idx fc : ℕ) (x : ℚ),
      (segItemsH wy wh fw dt ds n idx fc x items).filter isSwingGeom
        = swingGeomListH wy fw dt ds x items := by
  intro items
  induction items with
  | nil => intro idx fc x; simp [segItemsH, swingGeomListH]
  | cons it rest ih =>
    intro idx fc x
    obtain ⟨w, t⟩ := it
    by_cases hf : t = "Fixed"
    · simp [segItemsH, swingGeomListH, hf, List.filter_append, isSwingGeom,
        fixedBodyH, apply_ite (List.filter isSwingGeom), ih]
    · by_cases hs : t = "Swing Door"
      · simp [segItemsH, swingGeomListH, hf, hs, List.filter_append, isSwingGeom,
          swingBodyH, apply_ite (List.filter isSwingGeom), ih]
      · simp [segItemsH, swingGeomListH, hf, hs, List.filter_append, isSwingGeom,
          apply_ite (List.filter isSwingGeom), ih]

theorem dimPrimsH_filter_isSwingGeom (dimY : ℚ) :
    ∀ (ws : List ℚ) (x : ℚ), (dimPrimsH dimY x ws).filter isSwingGeom = [] := by
  intro ws
  induction ws with
  | nil => intro x; simp [dimPrimsH]
  | cons w rest ih =>
    intro x
    simp [dimPrimsH, List.filter_append, isSwingGeom, ih]

/-- Claim C6: in the plan view of a swing and fixed run, the swing
geometry consists of exactly one leaf, one quarter-circle arc and one
tip arrow per Swing Door panel: the leaf is a rectangle of the clear
width (panel width minus twice the frame depth) rotated 90 degrees
about a hinge located frame depth in from the left jamb when the
governing direction contains Left and in from the right jamb
otherwise, and the arc from that hinge has the clear width as radius
and spans 0 to 90 degrees for Left directions and 90 to 180 degrees
otherwise, with the arrow at the arc tip. -/
theorem C6_swing_door_plan_geometry (widths : List ℚ) (ptypes : List String)
    (ds : String) (wt fd dt : ℚ) :
    (drawTopdownSwingFixed widths ptypes ds wt fd dt).filter isSwingGeom
      = swingGeomListH 0 fd dt ds 0 (widths.zip ptypes) := by
  simp [drawTopdownSwingFixed, List.filter_append, isSwingGeom,
    segItemsH_filter_isSwingGeom, dimPrimsH_filter_isSwingGeom]

/-- Claim C10: the plan scene depends only on the panel types, the
panel widths and the single governing direction, which is read from
the first swing door when one exists and from the first sliding door
otherwise; the direction fields of every other panel never influence
the geometry. -/
theorem C10_single_governing_direction (panels panels' : List Panel)
    (ht : panels.map (·.type) = panels'.map (·.type))
    (hw : panels.map (·.width) = panels'.map (·.width))
    (hg : governingDirection panels = governingDirection panels') :
    generatePlanScene panels = generatePlanScene panels' := by
  unfold governingDirection at hg
  rw [ht] at hg
  simp only [generatePlanScene]
  rw [ht, hw]
  by_cases hs : ((panels'.map (·.type)).any (· == "Swing Door")) = true
  · simp only [hs, if_true] at hg
    have hdir := Option.some.inj hg
    simp only [hs, Bool.true_or, if_true, eq_self_iff_true, hdir]
  · have hs' : ((panels'.map (·.type)).any (· == "Swing Door")) = false :=
      Bool.eq_false_iff.mpr (fun hc => hs hc)
    simp only [hs', Bool.false_eq_true, if_false, Bool.false_or] at hg ⊢
    by_cases hsl : ((panels'.map (·.type)).any (· == "Sliding Door")) = true
    · simp only [hsl, if_true] at hg
      have hdir := Option.some.inj hg
      simp only [hsl, eq_self_iff_true, if_true, hdir]
    · have hsl' : ((panels'.map (·.type)).any (· == "Sliding Door")) = false :=
        Bool.eq_false_iff.mpr (fun hc => hsl hc)
      simp only [hsl', Bool.false_eq_true, if_false]

theorem C10_single_governing_direction_witness :
    ([swingP 30 "Left Out", swingP 30 "Right In"].map (·.type)
        = [swingP 30 "Left Out", swingP 30 "Left In"].map (·.type))
    ∧ ([swingP 30 "Left Out", swingP 30 "Right In"].map (·.width)
        = [swingP 30 "Left Out", swingP 30 "Left In"].map (·.width))
    ∧ (governingDirection [swingP 30 "Left Out", swingP 30 "Right In"]
        = governingDirection [swingP 30 "Left Out", swingP 30 "Left In"])
    ∧ generatePlanScene [swingP 30 "Left Out", swingP 30 "Right In"]
        = generatePlanScene [swingP 30 "Left Out", swingP 30 "Left In"] :=
  ⟨by decide, by decide, by decide,
    C10_single_governing_direction
      [swingP 30 "Left Out", swingP 30 "Right In"]
      [swingP 30 "Left Out", swingP 30 "Left In"]
      (by decide) (by decide) (by decide)⟩

theorem qtyOf_addBom (p : BomPanel) (b : BomItem) (k : String) :
    ∀ acc : List (String × BomEntry),
      qtyOf (addBom p b acc) k
        = qtyOf acc k + (if bomKey b = k then bomContribution p b else 0) := by
  intro acc
  induction acc with
  | nil =>
    by_cases hk : bomKey b = k
    · simp [addBom, qtyOf, hk]
    · simp [addBom, qtyOf, hk]
  | cons ke rest ih =>
    obtain ⟨k0, e⟩ := ke
    by_cases h0 : k0 = bomKey b
    · subst h0
      by_cases hk : bomKey b = k
      · simp [addBom, qtyOf, hk]
      · simp [addBom, qtyOf, hk]
    · by_cases hk : k0 = k
      · subst hk
        have hbk : ¬(bomKey b = k0) := fun h => h0 h.symm
        simp [addBom, qtyOf, h0, hbk]
      · simp [addBom, qtyOf, h0, hk, ih]

theorem qtyOf_foldl_addBom (k : String) :
    ∀ (l : List (BomPanel × BomItem)) (acc : List (String × BomEntry)),
      qtyOf (l.foldl (fun a pb => addBom pb.1 pb.2 a) acc) k
        = qtyOf acc k
          + (l.map (fun pb =>
              if bomKey pb.2 = k then bomContribution pb.1 pb.2 else 0)).sum := by
  intro l
  induction l with
  | nil => intro acc; simp
  | cons pb rest ih =>
    intro acc
    simp only [List.foldl_cons, List.map_cons, List.sum_cons, ih, qtyOf_addBom]
    ring

/-- Claim C8: BOM line items are keyed by part name and unit; an item
whose formula text contains the word width case-insensitively
contributes panel width over twelve per contributing panel, the
accumulated quantity under a key is the sum of the contributions of
all matching records in traversal order, every displayed row costs
unit cost times accumulated quantity, and the emitted table is the
rows followed by an appended grand total row summing the row costs. -/
theorem C8_bom_aggregation (ops : List (List BomPanel)) (k : String)
    (p : BomPanel) (b : BomItem)
    (hb : b.formula ≠ "" ∧ strHas (strLower b.formula) "width" = true) :
    bomContribution p b = p.width / 12
    ∧ qtyOf (aggregateBom ops) k
        = ((bomContributionList ops).map (fun pb =>
            if bomKey pb.2 = k then bomContribution pb.1 pb.2 else 0)).sum
    ∧ (∀ row ∈ bomRows ops, row.totalCost = row.quantity * row.unitCost)
    ∧ bomTable ops
        = bomRows ops ++ [⟨"TOTAL:", 0, 0, ((bomRows ops).map (·.totalCost)).sum⟩] := by
  refine ⟨?_, ?_, ?_, ?_⟩
  · simp [bomContribution, hb.1, hb.2]
  · simpa [aggregateBom, qtyOf] using qtyOf_foldl_addBom k (bomContributionList ops) []
  · intro row hrow
    obtain ⟨ke, _, rfl⟩ := List.mem_map.mp hrow
    rfl
  · rfl

def c8Item : BomItem :=
  ⟨"Extrusion", "Material", "top rail stock", "ft", 1, 2, "width * 1"⟩

def c8Ops : List (List BomPanel) :=
  [[⟨36, 96, [c8Item]⟩, ⟨48, 96, [c8Item]⟩]]

theorem C8_bom_aggregation_witness :
    (c8Item.formula ≠ "" ∧ strHas (strLower c8Item.formula) "width" = true)
    ∧ (bomContribution ⟨36, 96, [c8Item]⟩ c8Item = (36 : ℚ) / 12
      ∧ qtyOf (aggregateBom c8Ops) "Extrusion (ft)"
          = ((bomContributionList c8Ops).map (fun pb =>
              if bomKey pb.2 = "Extrusion (ft)" then bomContribution pb.1 pb.2 else 0)).sum
      ∧ (∀ row ∈ bomRows c8Ops, row.totalCost = row.quantity * row.unitCost)
      ∧ bomTable c8Ops
          = bomRows c8Ops
            ++ [⟨"TOTAL:", 0, 0, ((bomRows c8Ops).map (·.totalCost)).sum⟩])
    ∧ qtyOf (aggregateBom c8Ops) "Extrusion (ft)" = 7 :=
  ⟨⟨by decide, by decide⟩,
    C8_bom_aggregation c8Ops "Extrusion (ft)" ⟨36, 96, [c8Item]⟩ c8Item
      ⟨by decide, by decide⟩,
    by
      rw [(C8_bom_aggregation c8Ops "Extrusion (ft)" ⟨36, 96, [c8Item]⟩ c8Item
        ⟨by decide, by decide⟩).2.1]
      have hk : bomKey c8Item = "Extrusion (ft)" := by decide
      have hc1 : bomContribution ⟨36, 96, [c8Item]⟩ c8Item = (36 : ℚ) / 12 :=
        (C8_bom_aggregation c8Ops "Extrusion (ft)" ⟨36, 96, [c8Item]⟩ c8Item
          ⟨by decide, by decide⟩).1
      have hc2 : bomContribution ⟨48, 96, [c8Item]⟩ c8Item = (48 : ℚ) / 12 :=
        (C8_bom_aggregation c8Ops "Extrusion (ft)" ⟨48, 96, [c8Item]⟩ c8Item
          ⟨by decide, by decide⟩).1
      simp [bomContributionList, c8Ops, hk, hc1, hc2]
      norm_num⟩

theorem swingCorners_split (widths : List ℚ) (ptypes : List String) (ds : String)
    (wt fd dt : ℚ) (ci : ℕ)
    (hfi : firstIdxOf "Corner" ptypes = some ci)
    (h0 : 0 < ci) (h1 : ci < ptypes.length - 1) :
    drawTopdownSwingFixedWithCorners widths ptypes ds wt fd dt
      = drawHorizontalWallSegment (widths.take ci) (ptypes.take ci) 0 0 ds wt fd dt
          true false
        ++ drawVerticalWallSegment (widths.drop (ci + 1)) (ptypes.drop (ci + 1))
            ((widths.take ci).sum) 0 ds wt fd dt false true
        ++ dimPrimsH (0 - wt / 2 - 10) 0 (widths.take ci)
        ++ dimPrimsV ((widths.take ci).sum + 15) 0 (widths.drop (ci + 1)) := by
  unfold drawTopdownSwingFixedWithCorners
  rw [hfi]
  simp [h0, h1]

theorem slidingCorners_split_doorFirst (widths : List ℚ) (doorIdx : ℕ)
    (ds : String) (ptypes : List String) (wt fd dt : ℚ) (ci : ℕ)
    (hfi : firstIdxOf "Corner" ptypes = some ci)
    (h0 : 0 < ci) (h1 : ci < ptypes.length - 1) (hd : doorIdx < ci) :
    drawTopdownSlidingFixedWithCorners widths doorIdx ds ptypes wt fd dt
      = drawHorizontalSlidingSegment (widths.take ci) (ptypes.take ci) 0 0 ds wt fd dt
          true false
        ++ drawVerticalWallSegment (widths.drop (ci + 1)) (ptypes.drop (ci + 1))
            ((widths.take ci).sum) 0 "Right In" wt fd dt false true
        ++ dimPrimsH (0 - wt / 2 - 10) 0 (widths.take ci)
        ++ dimPrimsV ((widths.take ci).sum + 15) 0 (widths.drop (ci + 1)) := by
  unfold drawTopdownSlidingFixedWithCorners
  rw [hfi]
  have hd2 : ¬(ci < doorIdx) := by omega
  simp [h0, h1, hd, hd2]

theorem slidingCorners_split_doorSecond (widths : List ℚ) (doorIdx : ℕ)
    (ds : String) (ptypes : List String) (wt fd dt : ℚ) (ci : ℕ)
    (hfi : firstIdxOf "Corner" ptypes = some ci)
    (h0 : 0 < ci) (h1 : ci < ptypes.length - 1) (hd : ci < doorIdx) :
    drawTopdownSlidingFixedWithCorners widths doorIdx ds ptypes wt fd dt
      = drawHorizontalWallSegment (widths.take ci) (ptypes.take ci) 0 0 "Right In"
          wt fd dt true false
        ++ drawVerticalSlidingSegment (widths.drop (ci + 1)) (ptypes.drop (ci + 1))
            ((widths.take ci).sum) 0 ds wt fd dt false true
        ++ dimPrimsH (0 - wt / 2 - 10) 0 (widths.take ci)
        ++ dimPrimsV ((widths.take ci).sum + 15) 0 (widths.drop (ci + 1)) := by
  unfold drawTopdownSlidingFixedWithCorners
  rw [hfi]
  have hd2 : ¬(doorIdx < ci) := by omega
  simp [h0, h1, hd, hd2]

theorem gps_swing_corner (panels : List Panel)
    (hsw : (panels.map (·.type)).any (· == "Swing Door") = true)
    (hc : (panels.map (·.type)).any (· == "Corner") = true) :
    generatePlanScene panels
      = .ok (drawTopdownSwingFixedWithCorners (panels.map (·.width))
          (panels.map (·.type))
          ((panels.getD ((firstIdxOf "Swing Door" (panels.map (·.type))).getD
              (panels.map (·.type)).length) defaultPanel).swing_direction) 8 3 2) := by
  simp only [generatePlanScene, hsw, Bool.true_or, if_true, hc]

theorem gps_sliding_corner (panels : List Panel)
    (hsw : (panels.map (·.type)).any (· == "Swing Door") = false)
    (hsl : (panels.map (·.type)).any (· == "Sliding Door") = true)
    (hc : (panels.map (·.type)).any (· == "Corner") = true) :
    generatePlanScene panels
      = .ok (drawTopdownSlidingFixedWithCorners (panels.map (·.width))
          ((firstIdxOf "Sliding Door" (panels.map (·.type))).getD
            (panels.map (·.type)).length)
          ((panels.getD ((firstIdxOf "Sliding Door" (panels.map (·.type))).getD
              (panels.map (·.type)).length) defaultPanel).sliding_direction)
          (panels.map (·.type)) 8 3 2) := by
  simp only [generatePlanScene, hsw, hsl, Bool.false_eq_true, Bool.false_or, if_true,
    if_false, hc]

theorem countP_type_split (A B : List Panel) (c : Panel) (tgt : String) :
    ((A ++ c :: B).map (·.type)).countP (· == tgt)
      = A.countP (fun p => p.type == tgt)
        + (if c.type = tgt then 1 else 0)
        + B.countP (fun p => p.type == tgt) := by
  simp only [List.map_append, List.map_cons, List.countP_append, List.countP_cons,
    List.countP_map]
  have hcomp : ((fun x => x == tgt) ∘ fun x : Panel => x.type)
      = fun p : Panel => p.type == tgt := rfl
  rw [hcomp]
  by_cases hct : c.type = tgt
  · simp [hct]
    omega
  · simp [hct]

/-- Claim C1 as amended: for a plan request on a sequence consisting
of a nonempty corner-free leading run, exactly one Corner panel and a
nonempty corner-free trailing run, and containing exactly one door
panel (the code draws one leaf for every door panel a segment routine
visits, so a sequence with several doors draws several leaves), the
scene carries exactly one door leaf, and its wall-extension stubs are
exactly the far outer stub of the horizontal run and the far outer
stub of the vertical run, never one at the shared corner origin. -/
theorem C1_amended_one_leaf_outer_stubs (A B : List Panel) (c : Panel)
    (hc : c.type = "Corner") (hA : A ≠ []) (hB : B ≠ [])
    (hAnc : ∀ p ∈ A, p.type ≠ "Corner") (hBnc : ∀ p ∈ B, p.type ≠ "Corner")
    (hdoor : ((A ++ c :: B).map (·.type)).countP
        (fun t => t == "Swing Door" || t == "Sliding Door") = 1) :
    ∃ scene, generatePlanScene (A ++ c :: B) = .ok scene
      ∧ scene.countP isLeaf = 1
      ∧ scene.filter isWallExt
          = [Prim.wallExt (0 - 20) (0 - 8 / 2) 20 8,
             Prim.wallExt ((A.map (·.width)).sum - 8 / 2) ((B.map (·.width)).sum)
               8 20] := by
  have hT : (A ++ c :: B).map (·.type)
      = A.map (·.type) ++ "Corner" :: B.map (·.type) := by simp [hc]
  have hW : (A ++ c :: B).map (·.width)
      = A.map (·.width) ++ c.width :: B.map (·.width) := by simp
  have hAnc' : ∀ s ∈ A.map (·.type), s ≠ "Corner" := by
    intro s hs
    obtain ⟨p, hp, rfl⟩ := List.mem_map.mp hs
    exact hAnc p hp
  have hci : firstIdxOf "Corner" ((A ++ c :: B).map (·.type)) = some A.length := by
    rw [hT]
    simpa using firstIdxOf_corner_split (A.map (·.type)) (B.map (·.type)) hAnc'
  have hcorner_any : ((A ++ c :: B).map (·.type)).any (· == "Corner") = true := by
    rw [hT]
    simp
  have h0 : 0 < A.length := List.length_pos.mpr hA
  have hBl : 0 < B.length := List.length_pos.mpr hB
  have h1 : A.length < ((A ++ c :: B).map (·.type)).length - 1 := by
    simp only [List.length_map, List.length_append, List.length_cons]
    omega
  have hTtake : ((A ++ c :: B).map (·.type)).take A.length = A.map (·.type) := by
    rw [hT, show A.length = (A.map (·.type)).length from (List.length_map _ _).symm]
    exact List.take_left _ _
  have hTdrop : ((A ++ c :: B).map (·.type)).drop (A.length + 1)
      = B.map (·.type) := by
    rw [hT, List.append_cons,
      show A.length + 1 = ((A.map (·.type)) ++ ["Corner"]).length by simp]
    exact List.drop_left _ _
  have hWtake : ((A ++ c :: B).map (·.width)).take A.length = A.map (·.width) := by
    rw [hW, show A.length = (A.map (·.width)).length from (List.length_map _ _).symm]
    exact List.take_left _ _
  have hWdrop : ((A ++ c :: B).map (·.width)).drop (A.length + 1)
      = B.map (·.width) := by
    rw [hW, List.append_cons,
      show A.length + 1 = ((A.map (·.width)) ++ [c.width]).length by simp]
    exact List.drop_left _ _
  have hAwne : A.map (·.width) ≠ [] := by
    intro h
    exact hA (List.map_eq_nil_iff.mp h)
  have hBwne : B.map (·.width) ≠ [] := by
    intro h
    exact hB (List.map_eq_nil_iff.mp h)
  have hsplit := countP_door_split ((A ++ c :: B).map (·.type))
  have hswS := countP_type_split A B c "Swing Door"
  have hslS := countP_type_split A B c "Sliding Door"
  have hcsw : ¬(c.type = "Swing Door") := by rw [hc]; decide
  have hcsl : ¬(c.type = "Sliding Door") := by rw [hc]; decide
  rw [if_neg hcsw] at hswS
  rw [if_neg hcsl] at hslS
  have hcompz : ((fun it => it.2 == "Swing Door") ∘ fun p : Panel => (p.width, p.type))
      = fun p : Panel => p.type == "Swing Door" := rfl
  have hcompz' : ((fun it => it.2 == "Sliding Door") ∘ fun p : Panel => (p.width, p.type))
      = fun p : Panel => p.type == "Sliding Door" := rfl
  by_cases hsw : ((A ++ c :: B).map (·.type)).any (· == "Swing Door") = true
  · have hpos : 0 < ((A ++ c :: B).map (·.type)).countP (· == "Swing Door") := by
      rw [List.countP_pos_iff]
      obtain ⟨x, hx, hbx⟩ := List.any_eq_true.mp hsw
      exact ⟨x, hx, hbx⟩
    have hswA : A.countP (fun p => p.type == "Swing Door")
        + B.countP (fun p => p.type == "Swing Door") = 1 := by omega
    refine ⟨_, gps_swing_corner _ hsw hcorner_any, ?_, ?_⟩
    · rw [swingCorners_split _ _ _ _ _ _ A.length hci h0 h1]
      simp only [List.countP_append, hSeg_countP_isLeaf, vSeg_countP_isLeaf,
        dimPrimsH_countP_isLeaf, dimPrimsV_countP_isLeaf, hTtake, hTdrop,
        hWtake, hWdrop]
      rw [List.zip_map', List.zip_map', List.countP_map, List.countP_map, hcompz]
      omega
    · rw [swingCorners_split _ _ _ _ _ _ A.length hci h0 h1]
      simp only [List.filter_append, hTtake, hTdrop, hWtake, hWdrop]
      rw [hSeg_filter_isWallExt _ _ _ _ _ _ _ _ _ _ hAwne,
        vSeg_filter_isWallExt _ _ _ _ _ _ _ _ _ _ hBwne,
        dimPrimsH_filter_isWallExt, dimPrimsV_filter_isWallExt]
      simp
  · have hswf : ((A ++ c :: B).map (·.type)).any (· == "Swing Door") = false :=
      Bool.eq_false_iff.mpr hsw
    have hsw0 : ((A ++ c :: B).map (·.type)).countP (· == "Swing Door") = 0 := by
      rw [List.countP_eq_zero]
      rw [List.any_eq_false] at hswf
      exact hswf
    have hsl1 : ((A ++ c :: B).map (·.type)).countP (· == "Sliding Door") = 1 := by
      omega
    have hsl_any : ((A ++ c :: B).map (·.type)).any (· == "Sliding Door") = true := by
      rw [List.any_eq_true]
      exact List.countP_pos_iff.mp (by omega)
    have hswA0 : A.countP (fun p => p.type == "Swing Door") = 0 := by omega
    have hswB0 : B.countP (fun p => p.type == "Swing Door") = 0 := by omega
    by_cases hAs : 0 < A.countP (fun p => p.type == "Sliding Door")
    · have hA1 : A.countP (fun p => p.type == "Sliding Door") = 1 := by omega
      have hB0 : B.countP (fun p => p.type == "Sliding Door") = 0 := by omega
      have hmemTA : "Sliding Door" ∈ A.map (·.type) := by
        have hp : 0 < (A.map (·.type)).countP (· == "Sliding Door") := by
          rw [List.countP_map]
          have hcA : ((fun x => x == "Sliding Door") ∘ fun p : Panel => p.type)
              = fun p : Panel => p.type == "Sliding Door" := rfl
          rw [hcA]
          omega
        obtain ⟨x, hx, hbx⟩ := List.countP_pos_iff.mp hp
        rwa [show x = "Sliding Door" from by simpa using hbx] at hx
      obtain ⟨j, hj⟩ := firstIdxOf_eq_some_of_mem hmemTA
      have hjlen : j < A.length := by
        have := firstIdxOf_lt_length hj
        simpa using this
      have hfiT : firstIdxOf "Sliding Door" ((A ++ c :: B).map (·.type)) = some j := by
        rw [hT]
        exact firstIdxOf_append_left _ hj
      have hdi : (firstIdxOf "Sliding Door" ((A ++ c :: B).map (·.type))).getD
          ((A ++ c :: B).map (·.type)).length = j := by
        rw [hfiT]
        rfl
      refine ⟨_, gps_sliding_corner _ hswf hsl_any hcorner_any, ?_, ?_⟩
      · rw [slidingCorners_split_doorFirst _ _ _ _ _ _ _ A.length hci h0 h1
          (by rw [hdi]; exact hjlen)]
        simp only [List.countP_append, hSlide_countP_isLeaf, vSeg_countP_isLeaf,
          dimPrimsH_countP_isLeaf, dimPrimsV_countP_isLeaf, hTtake, hTdrop,
          hWtake, hWdrop]
        rw [List.zip_map', List.zip_map', List.countP_map, List.countP_map,
          hcompz, hcompz']
        omega
      · rw [slidingCorners_split_doorFirst _ _ _ _ _ _ _ A.length hci h0 h1
          (by rw [hdi]; exact hjlen)]
        simp only [List.filter_append, hTtake, hTdrop, hWtake, hWdrop]
        rw [hSlide_filter_isWallExt _ _ _ _ _ _ _ _ _ _ hAwne,
          vSeg_filter_isWallExt _ _ _ _ _ _ _ _ _ _ hBwne,
          dimPrimsH_filter_isWallExt, dimPrimsV_filter_isWallExt]
        simp
    · have hA0 : A.countP (fun p => p.type == "Sliding Door") = 0 := by omega
      have hB1 : B.countP (fun p => p.type == "Sliding Door") = 1 := by omega
      have hTAnosl : ∀ s ∈ A.map (·.type), s ≠ "Sliding Door" := by
        intro s hs
        obtain ⟨p, hp, rfl⟩ := List.mem_map.mp hs
        intro hcontra
        have : 0 < A.countP (fun p => p.type == "Sliding Door") := by
          rw [List.countP_pos_iff]
          exact ⟨p, hp, by simp [hcontra]⟩
        omega
      have hmemTB : "Sliding Door" ∈ B.map (·.type) := by
        have hp : 0 < (B.map (·.type)).countP (· == "Sliding Door") := by
          rw [List.countP_map]
          have hcB : ((fun x => x == "Sliding Door") ∘ fun p : Panel => p.type)
              = fun p : Panel => p.type == "Sliding Door" := rfl
          rw [hcB]
          omega
        obtain ⟨x, hx, hbx⟩ := List.countP_pos_iff.mp hp
        rwa [show x = "Sliding Door" from by simpa using hbx] at hx
      obtain ⟨jB, hjB⟩ := firstIdxOf_eq_some_of_mem hmemTB
      have hfiT : firstIdxOf "Sliding Door" ((A ++ c :: B).map (·.type))
          = some (jB + 1 + A.length) := by
        rw [hT, firstIdxOf_append_of_not_mem _ hTAnosl]
        rw [show firstIdxOf "Sliding Door" ("Corner" :: B.map (·.type))
            = (firstIdxOf "Sliding Door" (B.map (·.type))).map (· + 1) from by
          simp [firstIdxOf]]
        rw [hjB]
        simp
      have hdi : (firstIdxOf "Sliding Door" ((A ++ c :: B).map (·.type))).getD
          ((A ++ c :: B).map (·.type)).length = jB + 1 + A.length := by
        rw [hfiT]
        rfl
      refine ⟨_, gps_sliding_corner _ hswf hsl_any hcorner_any, ?_, ?_⟩
      · rw [slidingCorners_split_doorSecond _ _ _ _ _ _ _ A.length hci h0 h1
          (by rw [hdi]; omega)]
        simp only [List.countP_append, hSeg_countP_isLeaf, vSlide_countP_isLeaf,
          dimPrimsH_countP_isLeaf, dimPrimsV_countP_isLeaf, hTtake, hTdrop,
          hWtake, hWdrop]
        rw [List.zip_map', List.zip_map', List.countP_map, List.countP_map,
          hcompz, hcompz']
        omega
      · rw [slidingCorners_split_doorSecond _ _ _ _ _ _ _ A.length hci h0 h1
          (by rw [hdi]; omega)]
        simp only [List.filter_append, hTtake, hTdrop, hWtake, hWdrop]
        rw [hSeg_filter_isWallExt _ _ _ _ _ _ _ _ _ _ hAwne,
          vSlide_filter_isWallExt _ _ _ _ _ _ _ _ _ _ hBwne,
          dimPrimsH_filter_isWallExt, dimPrimsV_filter_isWallExt]
        simp

def c1Panels : List Panel := [swingP 36 "Right In", cornerP 6, swingP 36 "Left In"]

/-- Claim C1 counterexample: a sequence with exactly one Corner panel
and two door panels, one on each side of the corner, is a valid plan
request whose scene carries two door leaves, not one: the door index
passed to the far segment never suppresses that segment leaf drawing. -/
theorem C1_counterexample_two_leaves :
    ((c1Panels.map (·.type)).countP (· == "Corner") = 1)
    ∧ isOkE (generatePlanScene c1Panels) = true
    ∧ leafCountOf (generatePlanScene c1Panels) = 2 :=
  ⟨by decide, by decide, by decide⟩

theorem C1_amended_one_leaf_outer_stubs_witness :
    ((cornerP 6).type = "Corner")
    ∧ ([swingP 36 "Right In"] ≠ ([] : List Panel))
    ∧ ([fixedP 30] ≠ ([] : List Panel))
    ∧ (((([swingP 36 "Right In"] : List Panel) ++ cornerP 6 :: [fixedP 30]).map
        (·.type)).countP (fun t => t == "Swing Door" || t == "Sliding Door") = 1)
    ∧ ∃ scene,
        generatePlanScene ([swingP 36 "Right In"] ++ cornerP 6 :: [fixedP 30])
          = .ok scene
        ∧ scene.countP isLeaf = 1
        ∧ scene.filter isWallExt
            = [Prim.wallExt (0 - 20) (0 - 8 / 2) 20 8,
               Prim.wallExt (([swingP 36 "Right In"].map (·.width)).sum - 8 / 2)
                 (([fixedP 30].map (·.width)).sum) 8 20] :=
  ⟨by decide, by decide, by decide, by decide,
    C1_amended_one_leaf_outer_stubs [swingP 36 "Right In"] [fixedP 30] (cornerP 6)
      (by decide) (by decide) (by decide) (by decide) (by decide) (by decide)⟩
